import Mathlib

/-!
Verification of the wallbox fold-transform engine.

Shallow embedding of the repository's JavaScript sources:
* `utils.js` — the `Easing` table (`Easing.easeInOutCubic`).
* `box-geometry.js` — `TrapezoidBox`: dimensions, `createGeometry`,
  `updateDimensions`.
* the `UnfoldController` file — `saveRestPose`, `update`,
  `rotateAroundPivot`.
* `app.js` — `updateSpecifications` (derived display quantities) and the
  rebuild-and-reapply flow of `updateBoxGeometry`.

Real-number (`ℝ`) arithmetic stands for JavaScript doubles; THREE.js
meshes are modelled by a `Pose` record (position, Euler angles, scale and
a list of accumulated world-axis rotations), and the panels dictionary by
a record of `Option Pose` fields (an absent JavaScript property is
`none`).
-/

noncomputable section

open Real

/-- A 3-component vector, mirroring `THREE.Vector3`. -/
structure V3 where
  x : ℝ
  y : ℝ
  z : ℝ

namespace V3

@[ext] theorem ext_xyz {a b : V3} (hx : a.x = b.x) (hy : a.y = b.y) (hz : a.z = b.z) :
    a = b := by
  cases a; cases b; simp_all

/-- Componentwise addition (`Vector3.add`). -/
def add (a b : V3) : V3 := ⟨a.x + b.x, a.y + b.y, a.z + b.z⟩

/-- Componentwise subtraction (`Vector3.sub` / `subVectors`). -/
def sub (a b : V3) : V3 := ⟨a.x - b.x, a.y - b.y, a.z - b.z⟩

/-- Scalar multiple (`Vector3.multiplyScalar`). -/
def smul (c : ℝ) (a : V3) : V3 := ⟨c * a.x, c * a.y, c * a.z⟩

/-- Dot product (`Vector3.dot`). -/
def dot (a b : V3) : ℝ := a.x * b.x + a.y * b.y + a.z * b.z

/-- Cross product (`Vector3.cross`). -/
def cross (a b : V3) : V3 :=
  ⟨a.y * b.z - a.z * b.y, a.z * b.x - a.x * b.z, a.x * b.y - a.y * b.x⟩

/-- Euclidean length (`Vector3.length`). -/
def len (a : V3) : ℝ := Real.sqrt (a.x ^ 2 + a.y ^ 2 + a.z ^ 2)

/-- Normalisation (`Vector3.normalize`); Lean's `1/0 = 0` convention maps the
zero vector to itself while THREE.js would produce NaNs — the code only ever
normalises nonzero vectors. -/
def normalize (a : V3) : V3 := smul (1 / len a) a

/-- The zero vector. -/
def zero : V3 := ⟨0, 0, 0⟩

/-- The unit scale vector `(1,1,1)` (THREE.js default `Object3D.scale`). -/
def one : V3 := ⟨1, 1, 1⟩

end V3

/-- Rotation about the x axis by `t` (radians), acting on column vectors. -/
def rotXv (t : ℝ) (v : V3) : V3 :=
  ⟨v.x, Real.cos t * v.y - Real.sin t * v.z, Real.sin t * v.y + Real.cos t * v.z⟩

/-- Rotation about the y axis by `t`. -/
def rotYv (t : ℝ) (v : V3) : V3 :=
  ⟨Real.cos t * v.x + Real.sin t * v.z, v.y, -Real.sin t * v.x + Real.cos t * v.z⟩

/-- Rotation about the z axis by `t`. -/
def rotZv (t : ℝ) (v : V3) : V3 :=
  ⟨Real.cos t * v.x - Real.sin t * v.y, Real.sin t * v.x + Real.cos t * v.y, v.z⟩

/-- Rodrigues rotation of `v` about the unit axis `k` by angle `t`
(`THREE.Vector3.applyAxisAngle` for a normalised axis). -/
def applyAxisAngle (k : V3) (t : ℝ) (v : V3) : V3 :=
  (V3.smul (Real.cos t) v).add
    ((V3.smul (Real.sin t) (V3.cross k v)).add
      (V3.smul ((1 - Real.cos t) * V3.dot k v) k))

/-- THREE.js Euler rotation orders used by the sources. -/
inductive EulOrder where
  | xyz
  | yxz
  deriving Repr, DecidableEq

/-- Euler angles with order, mirroring `THREE.Euler`. -/
structure Eul where
  x : ℝ
  y : ℝ
  z : ℝ
  order : EulOrder

@[ext] theorem Eul.ext_xyzo {a b : Eul} (hx : a.x = b.x) (hy : a.y = b.y)
    (hz : a.z = b.z) (ho : a.order = b.order) : a = b := by
  cases a; cases b; simp_all

/-- Action of an Euler rotation on a vector: order `XYZ` is the intrinsic
composition `Rx ∘ Ry ∘ Rz`, order `YXZ` is `Ry ∘ Rx ∘ Rz`, matching
`THREE.Quaternion.setFromEuler`. -/
def eulApply (e : Eul) (v : V3) : V3 :=
  match e.order with
  | .xyz => rotXv e.x (rotYv e.y (rotZv e.z v))
  | .yxz => rotYv e.y (rotXv e.x (rotZv e.z v))

/-- An axis-angle pair, as fed to `rotateOnWorldAxis`. -/
structure AA where
  axisv : V3
  angle : ℝ

/-- Apply a list of accumulated world-axis rotations, most recent first. -/
def applySpins : List AA → V3 → V3
  | [], v => v
  | a :: rest, v => applyAxisAngle a.axisv a.angle (applySpins rest v)

/-- A mesh pose: position, stored Euler rotation, scale, and the world-axis
rotations accumulated by `rotateOnWorldAxis` since the Euler angles were last
written (THREE.js keeps the quaternion synchronised instead; the engine only
ever writes Euler components when this list is empty, so the two views
agree). -/
structure Pose where
  pos : V3
  eul : Eul
  scale : V3
  spins : List AA

/-- Total orientation of a pose, as a map on local vectors. -/
def orientApply (p : Pose) (v : V3) : V3 := applySpins p.spins (eulApply p.eul v)

/-- Map a local point into the parent frame: `pos + orientation(v)`. -/
def frameApply (p : Pose) (v : V3) : V3 := (p.pos).add (orientApply p v)

/-- A rest pose as captured by `saveRestPose`: `position.clone()`,
`rotation.clone()` (Euler angles) and `scale.clone()`. -/
structure RestPose where
  pos : V3
  eul : Eul
  scale : V3

/-- Restoring a rest pose: `position.copy`, `rotation.copy`, `scale.copy`.
Writing the Euler angles resynchronises the quaternion, so accumulated
world-axis rotations are discarded. -/
def RestPose.restore (r : RestPose) : Pose := ⟨r.pos, r.eul, r.scale, []⟩

/-- Capture a pose as a rest pose (the clone in `saveRestPose`). -/
def Pose.toRest (p : Pose) : RestPose := ⟨p.pos, p.eul, p.scale⟩

-- The easing table of `utils.js`.
namespace Easing

/-- `easeInOutCubic` from `utils.js`:
`t < 0.5 ? 4 * t * t * t : 1 - Math.pow(-2 * t + 2, 3) / 2`. -/
def easeInOutCubic (t : ℝ) : ℝ :=
  if t < 1 / 2 then 4 * t * t * t else 1 - (-2 * t + 2) ^ 3 / 2

theorem easeInOutCubic_zero : easeInOutCubic 0 = 0 := by
  simp [easeInOutCubic]

theorem easeInOutCubic_one : easeInOutCubic 1 = 1 := by
  norm_num [easeInOutCubic]

theorem easeInOutCubic_half : easeInOutCubic (1 / 2) = 1 / 2 := by
  norm_num [easeInOutCubic]

/-- The easing curve is monotone on all of `ℝ` (hence on `[0,1]`). -/
theorem easeInOutCubic_monotone : Monotone easeInOutCubic := by
  intro p q hpq
  unfold easeInOutCubic
  by_cases hp : p < 1 / 2 <;> by_cases hq : q < 1 / 2
  · simp only [if_pos hp, if_pos hq]
    nlinarith [sq_nonneg (p + q), sq_nonneg (p - q), sq_nonneg p, sq_nonneg q]
  · simp only [if_pos hp, if_neg hq]
    push_neg at hq
    have h1 : 4 * p * p * p ≤ 1 / 2 := by
      nlinarith [sq_nonneg (p + 1 / 4)]
    have h2 : (-2 * q + 2) ^ 3 ≤ 1 := by
      nlinarith [sq_nonneg ((-2 * q + 2) + 1 / 2)]
    linarith
  · exfalso
    push_neg at hp
    linarith
  · simp only [if_neg hp, if_neg hq]
    push_neg at hp hq
    nlinarith [sq_nonneg ((2 - 2*p) + (2 - 2*q)), sq_nonneg ((2 - 2*p) - (2 - 2*q)),
      sq_nonneg (2 - 2*p), sq_nonneg (2 - 2*q)]

/-- The easing curve is continuous. -/
theorem easeInOutCubic_continuous : Continuous easeInOutCubic := by
  have h : easeInOutCubic = fun t : ℝ =>
      if t ≤ 1 / 2 then 4 * t * t * t else 1 - (-2 * t + 2) ^ 3 / 2 := by
    funext t
    by_cases ht : t < 1 / 2
    · rw [easeInOutCubic, if_pos ht, if_pos (le_of_lt ht)]
    · push_neg at ht
      rcases eq_or_lt_of_le ht with he | hl
      · rw [easeInOutCubic, if_neg (not_lt.mpr ht), if_pos he.symm.le]
        norm_num [← he]
      · rw [easeInOutCubic, if_neg (not_lt.mpr ht), if_neg (not_le.mpr hl)]
  rw [h]
  apply Continuous.if_le
  · continuity
  · continuity
  · exact continuous_id
  · exact continuous_const
  · intro t ht
    norm_num [ht]

/-- The easing curve maps `[0,1]` into `[0,1]`. -/
theorem easeInOutCubic_mem_Icc {t : ℝ} (h0 : 0 ≤ t) (h1 : t ≤ 1) :
    easeInOutCubic t ∈ Set.Icc (0 : ℝ) 1 := by
  constructor
  · have := easeInOutCubic_monotone h0
    rwa [easeInOutCubic_zero] at this
  · have := easeInOutCubic_monotone h1
    rwa [easeInOutCubic_one] at this

end Easing

/-- The five box dimensions, with the field names of `TrapezoidBox`
(`this.tw`, `this.bw`, `this.h`, `this.d`, `this.fw`). -/
structure Dims where
  tw : ℝ
  bw : ℝ
  h : ℝ
  d : ℝ
  fw : ℝ

@[ext] theorem Dims.ext_dims {a b : Dims} (h1 : a.tw = b.tw) (h2 : a.bw = b.bw)
    (h3 : a.h = b.h) (h4 : a.d = b.d) (h5 : a.fw = b.fw) : a = b := by
  cases a; cases b; simp_all

/-- The default dimensions set in the `TrapezoidBox` constructor. -/
def defaultDims : Dims := ⟨30, 20, 25, 15, 2⟩

/-- Identifiers of every panel name appearing in the sources: the nine keys
`createGeometry` stores in `this.panels` plus the four additional names that
`UnfoldController.update` dereferences. -/
inductive PanelId where
  | back | bottom | lid | left | right
  | lidFlap | leftFlap | rightFlap | front
  | lidLeftFlap | lidRightFlap | leftBottomFlap | rightBottomFlap
  deriving Repr, DecidableEq

/-- The `this.panels` dictionary: a JavaScript property that was never
assigned reads as `undefined`, modelled by `none`. -/
structure Panels where
  back : Option Pose
  bottom : Option Pose
  lid : Option Pose
  left : Option Pose
  right : Option Pose
  lidFlap : Option Pose
  leftFlap : Option Pose
  rightFlap : Option Pose
  front : Option Pose
  lidLeftFlap : Option Pose
  lidRightFlap : Option Pose
  leftBottomFlap : Option Pose
  rightBottomFlap : Option Pose

/-- Look up a panel by identifier. -/
def Panels.get (ps : Panels) : PanelId → Option Pose
  | .back => ps.back
  | .bottom => ps.bottom
  | .lid => ps.lid
  | .left => ps.left
  | .right => ps.right
  | .lidFlap => ps.lidFlap
  | .leftFlap => ps.leftFlap
  | .rightFlap => ps.rightFlap
  | .front => ps.front
  | .lidLeftFlap => ps.lidLeftFlap
  | .lidRightFlap => ps.lidRightFlap
  | .leftBottomFlap => ps.leftBottomFlap
  | .rightBottomFlap => ps.rightBottomFlap

/-- The `this.restPose` dictionary of the controller. -/
structure Rests where
  back : Option RestPose
  bottom : Option RestPose
  lid : Option RestPose
  left : Option RestPose
  right : Option RestPose
  lidFlap : Option RestPose
  leftFlap : Option RestPose
  rightFlap : Option RestPose
  front : Option RestPose
  lidLeftFlap : Option RestPose
  lidRightFlap : Option RestPose
  leftBottomFlap : Option RestPose
  rightBottomFlap : Option RestPose

/-- Look up a rest pose by identifier. -/
def Rests.get (rs : Rests) : PanelId → Option RestPose
  | .back => rs.back
  | .bottom => rs.bottom
  | .lid => rs.lid
  | .left => rs.left
  | .right => rs.right
  | .lidFlap => rs.lidFlap
  | .leftFlap => rs.leftFlap
  | .rightFlap => rs.rightFlap
  | .front => rs.front
  | .lidLeftFlap => rs.lidLeftFlap
  | .lidRightFlap => rs.lidRightFlap
  | .leftBottomFlap => rs.leftBottomFlap
  | .rightBottomFlap => rs.rightBottomFlap

namespace TrapezoidBox

/-- `dx = (this.tw - this.bw) / 2` from `createGeometry`. -/
def dxOf (dims : Dims) : ℝ := (dims.tw - dims.bw) / 2

/-- `slantHeight = Math.sqrt(dx * dx + dy * dy)` with `dy = this.h`. -/
def slantHeight (dims : Dims) : ℝ :=
  Real.sqrt (dxOf dims * dxOf dims + dims.h * dims.h)

/-- `slantAngle = Math.atan2(dx, dy)`; modelled as `arctan (dx / h)`, which
agrees with `atan2` whenever `h > 0` (the only regime the geometry is built
for). -/
def slantAngle (dims : Dims) : ℝ := Real.arctan (dxOf dims / dims.h)

/-- A rest pose with given position and Euler angles, default scale and no
accumulated world-axis rotations (every freshly created mesh). -/
def mkPose (pos : V3) (e : Eul) : Pose := ⟨pos, e, V3.one, []⟩

/-- The identity Euler rotation with THREE.js's default order. -/
def eulZero : Eul := ⟨0, 0, 0, .xyz⟩

/-- `TrapezoidBox.createGeometry`: the mesh poses stored in `this.panels`.
Geometry (vertex) data is modelled separately by the local hinge-edge
segments below; only position/rotation/scale assignments appear here.
Note the dictionary receives exactly nine keys. -/
def createGeometry (dims : Dims) : Panels :=
  let halfH := dims.h / 2
  let sh := slantHeight dims
  let sa := slantAngle dims
  -- left side: rotation.order = 'YXZ', rotation.y = π/2, rotation.x = -sa
  let leftEul : Eul := ⟨-sa, Real.pi / 2, 0, .yxz⟩
  let hingeCorner : V3 := ⟨-dims.bw / 2, -dims.h / 2, -dims.d / 2⟩
  let localCorner : V3 := ⟨-dims.d / 2, -sh / 2, 0⟩
  let rightEul : Eul := ⟨sa, Real.pi / 2, 0, .yxz⟩
  let rightHingeCorner : V3 := ⟨dims.bw / 2, -dims.h / 2, -dims.d / 2⟩
  let rightLocalCorner : V3 := ⟨-dims.d / 2, -sh / 2, 0⟩
  { back := some (mkPose ⟨0, 0, -dims.d / 2⟩ eulZero)
    bottom := some (mkPose ⟨0, -halfH, 0⟩ ⟨Real.pi / 2, 0, 0, .xyz⟩)
    lid := some (mkPose ⟨0, halfH, 0⟩ ⟨Real.pi / 2, 0, 0, .xyz⟩)
    left := some (mkPose (hingeCorner.sub (eulApply leftEul localCorner)) leftEul)
    right := some
      (mkPose (rightHingeCorner.sub (eulApply rightEul rightLocalCorner)) rightEul)
    lidFlap := some (mkPose ⟨0, dims.d / 2, 0⟩ eulZero)
    leftFlap := some (mkPose ⟨dims.d / 2, 0, 0⟩ eulZero)
    rightFlap := some (mkPose ⟨dims.d / 2, 0, 0⟩ eulZero)
    front := some (mkPose ⟨0, dims.d / 2, 0⟩ eulZero)
    lidLeftFlap := none
    lidRightFlap := none
    leftBottomFlap := none
    rightBottomFlap := none }

/-- The scene-graph parent of each panel as built by `createGeometry`:
`front` is added to `bottom`, each flap to its side/lid mesh, and the five
main panels directly to `this.group` (no panel parent). The four names that
`createGeometry` never creates are given the parents the spec assigns them. -/
def parentOf : PanelId → Option PanelId
  | .front => some .bottom
  | .lidFlap => some .lid
  | .leftFlap => some .left
  | .rightFlap => some .right
  | .lidLeftFlap => some .lid
  | .lidRightFlap => some .lid
  | .leftBottomFlap => some .left
  | .rightBottomFlap => some .right
  | _ => none

/-- The UI parameter bundle handed to `updateDimensions`: a missing slider
value is `none`; NaN (also falsy in JavaScript) has no `ℝ` counterpart and is
not modelled. -/
structure UParams where
  topWidth : Option ℝ
  bottomWidth : Option ℝ
  height : Option ℝ
  depth : Option ℝ
  flapWidth : Option ℝ

/-- JavaScript `params.x || old`: a missing or zero (falsy) value keeps the
old one, any other number — negative included — replaces it. -/
def jsTruthyOr (v : Option ℝ) (old : ℝ) : ℝ :=
  match v with
  | none => old
  | some x => if x = 0 then old else x

/-- The box object: current dimensions plus the panels dictionary. -/
structure Box where
  dims : Dims
  panels : Panels

/-- The five `this.x = params.y || this.x` assignments of
`updateDimensions`. -/
def mergeDims (dims : Dims) (params : UParams) : Dims :=
  { tw := jsTruthyOr params.topWidth dims.tw
    bw := jsTruthyOr params.bottomWidth dims.bw
    h := jsTruthyOr params.height dims.h
    d := jsTruthyOr params.depth dims.d
    fw := jsTruthyOr params.flapWidth dims.fw }

/-- `TrapezoidBox.updateDimensions`: overwrite each stored dimension with the
supplied value when truthy, then `rebuild()` (clear the dictionary and run
`createGeometry` on the new dimensions). No validation is performed and no
exception can be raised. -/
def updateDimensions (b : Box) (params : UParams) : Box :=
  { dims := mergeDims b.dims params
    panels := createGeometry (mergeDims b.dims params) }

end TrapezoidBox

namespace Specs

/-- `dx` as computed in `updateSpecifications` (`app.js`). -/
def dxOf (p : Dims) : ℝ := (p.tw - p.bw) / 2

/-- `slantH = Math.sqrt(dx * dx + params.height * params.height)`. -/
def slantH (p : Dims) : ℝ := Real.sqrt (dxOf p * dxOf p + p.h * p.h)

/-- `totalW = params.topWidth + 2 * (slantH + params.flapWidth)`. -/
def totalW (p : Dims) : ℝ := p.tw + 2 * (slantH p + p.fw)

/-- `totalH = fw + d + h + d + fw` (centre column of the flat pattern). -/
def totalH (p : Dims) : ℝ := p.fw + p.d + p.h + p.d + p.fw

/-- `areaBack = height * (topWidth + bottomWidth) / 2`. -/
def areaBack (p : Dims) : ℝ := p.h * (p.tw + p.bw) / 2

/-- `areaBottom = bottomWidth * depth`. -/
def areaBottom (p : Dims) : ℝ := p.bw * p.d

/-- `areaLid = topWidth * depth`. -/
def areaLid (p : Dims) : ℝ := p.tw * p.d

/-- `areaSides = 2 * (depth * slantH)`. -/
def areaSides (p : Dims) : ℝ := 2 * (p.d * slantH p)

/-- `areaFlaps = tw*fw + bw*fw + 2*fw*slantH`. -/
def areaFlaps (p : Dims) : ℝ :=
  p.tw * p.fw + p.bw * p.fw + 2 * p.fw * slantH p

/-- `totalArea`, the sum displayed by `updateSpecifications`. -/
def totalArea (p : Dims) : ℝ :=
  areaBack p + areaBottom p + areaLid p + areaSides p + areaFlaps p

end Specs

namespace UnfoldController

/-- Controller-visible state: the box (dimensions and panels dictionary), the
saved `this.restPose` table and the stored `this.progress`. -/
structure State where
  panels : Panels
  rest : Rests
  dims : Dims
  prog : ℝ

/-- `saveRestPose`: clone position, rotation (Euler angles) and scale of every
panel present in `this.box.panels`. -/
def saveRestPose (s : State) : State :=
  { s with rest :=
    { back := s.panels.back.map Pose.toRest
      bottom := s.panels.bottom.map Pose.toRest
      lid := s.panels.lid.map Pose.toRest
      left := s.panels.left.map Pose.toRest
      right := s.panels.right.map Pose.toRest
      lidFlap := s.panels.lidFlap.map Pose.toRest
      leftFlap := s.panels.leftFlap.map Pose.toRest
      rightFlap := s.panels.rightFlap.map Pose.toRest
      front := s.panels.front.map Pose.toRest
      lidLeftFlap := s.panels.lidLeftFlap.map Pose.toRest
      lidRightFlap := s.panels.lidRightFlap.map Pose.toRest
      leftBottomFlap := s.panels.leftBottomFlap.map Pose.toRest
      rightBottomFlap := s.panels.rightBottomFlap.map Pose.toRest } }

/-- One step of the reset loop in `update`: a panel that is absent is not
visited; a present panel whose rest pose is missing is skipped by
`if (!rest) continue;` — silently keeping its current pose. -/
def resetOne (p : Option Pose) (r : Option RestPose) : Option Pose :=
  match p with
  | none => none
  | some q =>
    match r with
    | none => some q
    | some r => some r.restore

/-- The reset loop of `update`, over every key of `this.box.panels`. -/
def resetPanels (ps : Panels) (rs : Rests) : Panels :=
  { back := resetOne ps.back rs.back
    bottom := resetOne ps.bottom rs.bottom
    lid := resetOne ps.lid rs.lid
    left := resetOne ps.left rs.left
    right := resetOne ps.right rs.right
    lidFlap := resetOne ps.lidFlap rs.lidFlap
    leftFlap := resetOne ps.leftFlap rs.leftFlap
    rightFlap := resetOne ps.rightFlap rs.rightFlap
    front := resetOne ps.front rs.front
    lidLeftFlap := resetOne ps.lidLeftFlap rs.lidLeftFlap
    lidRightFlap := resetOne ps.lidRightFlap rs.lidRightFlap
    leftBottomFlap := resetOne ps.leftBottomFlap rs.leftBottomFlap
    rightBottomFlap := resetOne ps.rightBottomFlap rs.rightBottomFlap }

/-- `rotateAroundPivot(mesh, pivot, axis, angle)`: subtract the pivot from the
position, rotate the position by axis/angle, rotate the orientation on the
same world axis, add the pivot back. -/
def rotateAroundPivot (m : Pose) (pivot axisv : V3) (angle : ℝ) : Pose :=
  { pos := (applyAxisAngle axisv angle (m.pos.sub pivot)).add pivot
    eul := m.eul
    scale := m.scale
    spins := ⟨axisv, angle⟩ :: m.spins }

/-- `mesh.rotation.x = a`: write one Euler component; THREE.js resynchronises
the quaternion from the full Euler triple, so accumulated world-axis rotations
are dropped. -/
def setEulX (m : Pose) (a : ℝ) : Pose :=
  { m with eul := { m.eul with x := a }, spins := [] }

/-- `mesh.rotation.y = a`, as `setEulX`. -/
def setEulY (m : Pose) (a : ℝ) : Pose :=
  { m with eul := { m.eul with y := a }, spins := [] }

/-- Dereference a panel: reading a property of `undefined` throws a
TypeError. -/
def getP (p : Option Pose) : Except String Pose :=
  match p with
  | some q => Except.ok q
  | none => Except.error "TypeError: cannot read properties of undefined"

set_option maxHeartbeats 1000000 in
/-- `UnfoldController.update(progress)`, line for line: store the progress,
reset every panel to its saved rest pose, then apply the fold law of each
panel in source order. A missing panel object makes the call throw. -/
def update (s : State) (progress : ℝ) : Except String State := do
  let s := { s with prog := progress,
                    panels := resetPanels s.panels s.rest }
  let h := s.dims.h
  let d := s.dims.d
  let hh := h / 2
  let closeProgress := Easing.easeInOutCubic progress
  let openAmount := 1 - closeProgress
  -- 1. LID
  let lidPivot : V3 := ⟨0, hh, -d / 2⟩
  let lidAngle := openAmount * (Real.pi / 2)
  let lid0 ← getP s.panels.lid
  let s := { s with panels :=
    { s.panels with lid := some (rotateAroundPivot lid0 lidPivot ⟨1, 0, 0⟩ (-lidAngle)) } }
  -- 2. BOTTOM
  let bottomPivot : V3 := ⟨0, -hh, -d / 2⟩
  let bottomAngle := openAmount * (Real.pi / 2)
  let bottom0 ← getP s.panels.bottom
  let s := { s with panels :=
    { s.panels with bottom := some (rotateAroundPivot bottom0 bottomPivot ⟨1, 0, 0⟩ bottomAngle) } }
  -- 3. LEFT SIDE
  let leftP1 : V3 := ⟨-s.dims.bw / 2, -hh, -d / 2⟩
  let leftP2 : V3 := ⟨-s.dims.tw / 2, hh, -d / 2⟩
  let leftAxis := (leftP2.sub leftP1).normalize
  let leftAngle := Real.pi / 2 + closeProgress * (Real.pi / 2)
  let left0 ← getP s.panels.left
  let s := { s with panels :=
    { s.panels with left := some (rotateAroundPivot left0 leftP1 leftAxis leftAngle) } }
  -- 4. RIGHT SIDE
  let rightP1 : V3 := ⟨s.dims.bw / 2, -hh, -d / 2⟩
  let rightP2 : V3 := ⟨s.dims.tw / 2, hh, -d / 2⟩
  let rightAxis := (rightP2.sub rightP1).normalize
  let rightAngle := Real.pi / 2 + closeProgress * (Real.pi / 2)
  let right0 ← getP s.panels.right
  let s := { s with panels :=
    { s.panels with right := some (rotateAroundPivot right0 rightP1 rightAxis (-rightAngle)) } }
  -- 5. FLAPS and FRONT
  let lidFlap0 ← getP s.panels.lidFlap
  let s := { s with panels :=
    { s.panels with lidFlap := some (setEulX lidFlap0 (Real.pi / 2 * closeProgress)) } }
  let lidLeftFlap0 ← getP s.panels.lidLeftFlap
  let s := { s with panels :=
    { s.panels with lidLeftFlap := some (setEulY lidLeftFlap0 (Real.pi / 2 * closeProgress)) } }
  let lidRightFlap0 ← getP s.panels.lidRightFlap
  let s := { s with panels :=
    { s.panels with lidRightFlap := some (setEulY lidRightFlap0 (-Real.pi / 2 * closeProgress)) } }
  let front0 ← getP s.panels.front
  let s := { s with panels :=
    { s.panels with front := some (setEulX front0 (-Real.pi / 2 * closeProgress)) } }
  let leftFlap0 ← getP s.panels.leftFlap
  let s := { s with panels :=
    { s.panels with leftFlap := some (setEulY leftFlap0 (Real.pi / 4 + closeProgress * (Real.pi / 4))) } }
  let rightFlap0 ← getP s.panels.rightFlap
  let s := { s with panels :=
    { s.panels with rightFlap := some (setEulY rightFlap0 (-Real.pi / 4 - closeProgress * (Real.pi / 4))) } }
  let leftBottomFlap0 ← getP s.panels.leftBottomFlap
  let s := { s with panels :=
    { s.panels with leftBottomFlap := some (setEulX leftBottomFlap0 (Real.pi / 2 * closeProgress)) } }
  let rightBottomFlap0 ← getP s.panels.rightBottomFlap
  let s := { s with panels :=
    { s.panels with rightBottomFlap := some (setEulX rightBottomFlap0 (Real.pi / 2 * closeProgress)) } }
  pure s

end UnfoldController

namespace UnfoldController

/-- Result of the fold-law pass of `update` on already-reset panels `q`
(the total function the successful run computes). -/
def enginePanels (dims : Dims) (p : ℝ) (q : Panels) : Panels :=
  let cp := Easing.easeInOutCubic p
  let hh := dims.h / 2
  let d := dims.d
  { q with
    lid := q.lid.map (fun m =>
      rotateAroundPivot m ⟨0, hh, -d / 2⟩ ⟨1, 0, 0⟩ (-((1 - cp) * (Real.pi / 2))))
    bottom := q.bottom.map (fun m =>
      rotateAroundPivot m ⟨0, -hh, -d / 2⟩ ⟨1, 0, 0⟩ ((1 - cp) * (Real.pi / 2)))
    left := q.left.map (fun m =>
      rotateAroundPivot m ⟨-dims.bw / 2, -hh, -d / 2⟩
        ((V3.sub ⟨-dims.tw / 2, hh, -d / 2⟩ ⟨-dims.bw / 2, -hh, -d / 2⟩).normalize)
        (Real.pi / 2 + cp * (Real.pi / 2)))
    right := q.right.map (fun m =>
      rotateAroundPivot m ⟨dims.bw / 2, -hh, -d / 2⟩
        ((V3.sub ⟨dims.tw / 2, hh, -d / 2⟩ ⟨dims.bw / 2, -hh, -d / 2⟩).normalize)
        (-(Real.pi / 2 + cp * (Real.pi / 2))))
    lidFlap := q.lidFlap.map (fun m => setEulX m (Real.pi / 2 * cp))
    lidLeftFlap := q.lidLeftFlap.map (fun m => setEulY m (Real.pi / 2 * cp))
    lidRightFlap := q.lidRightFlap.map (fun m => setEulY m (-Real.pi / 2 * cp))
    front := q.front.map (fun m => setEulX m (-Real.pi / 2 * cp))
    leftFlap := q.leftFlap.map (fun m =>
      setEulY m (Real.pi / 4 + cp * (Real.pi / 4)))
    rightFlap := q.rightFlap.map (fun m =>
      setEulY m (-Real.pi / 4 - cp * (Real.pi / 4)))
    leftBottomFlap := q.leftBottomFlap.map (fun m => setEulX m (Real.pi / 2 * cp))
    rightBottomFlap := q.rightBottomFlap.map (fun m => setEulX m (Real.pi / 2 * cp)) }

set_option maxHeartbeats 1000000 in
/-- When every panel and every rest pose is present, `update` succeeds and
returns exactly the reset-then-fold panels. -/
lemma update_eq_ok (s : State) (p : ℝ)
    (hps : ∀ i, (s.panels.get i).isSome) (hrs : ∀ i, (s.rest.get i).isSome) :
    update s p = Except.ok
      ⟨enginePanels s.dims p (resetPanels s.panels s.rest), s.rest, s.dims, p⟩ := by
  rcases s with ⟨ps, rs, dims, pr0⟩
  rcases ps with ⟨b, bo, l, le, ri, lf, lef, rif, fr, a1, a2, a3, a4⟩
  rcases rs with ⟨rb, rbo, rl, rle, rri, rlf, rlef, rrif, rfr, ra1, ra2, ra3, ra4⟩
  obtain ⟨vb, rfl⟩ := Option.isSome_iff_exists.mp (hps .back)
  obtain ⟨vbo, rfl⟩ := Option.isSome_iff_exists.mp (hps .bottom)
  obtain ⟨vl, rfl⟩ := Option.isSome_iff_exists.mp (hps .lid)
  obtain ⟨vle, rfl⟩ := Option.isSome_iff_exists.mp (hps .left)
  obtain ⟨vri, rfl⟩ := Option.isSome_iff_exists.mp (hps .right)
  obtain ⟨vlf, rfl⟩ := Option.isSome_iff_exists.mp (hps .lidFlap)
  obtain ⟨vlef, rfl⟩ := Option.isSome_iff_exists.mp (hps .leftFlap)
  obtain ⟨vrif, rfl⟩ := Option.isSome_iff_exists.mp (hps .rightFlap)
  obtain ⟨vfr, rfl⟩ := Option.isSome_iff_exists.mp (hps .front)
  obtain ⟨va1, rfl⟩ := Option.isSome_iff_exists.mp (hps .lidLeftFlap)
  obtain ⟨va2, rfl⟩ := Option.isSome_iff_exists.mp (hps .lidRightFlap)
  obtain ⟨va3, rfl⟩ := Option.isSome_iff_exists.mp (hps .leftBottomFlap)
  obtain ⟨va4, rfl⟩ := Option.isSome_iff_exists.mp (hps .rightBottomFlap)
  obtain ⟨wb, rfl⟩ := Option.isSome_iff_exists.mp (hrs .back)
  obtain ⟨wbo, rfl⟩ := Option.isSome_iff_exists.mp (hrs .bottom)
  obtain ⟨wl, rfl⟩ := Option.isSome_iff_exists.mp (hrs .lid)
  obtain ⟨wle, rfl⟩ := Option.isSome_iff_exists.mp (hrs .left)
  obtain ⟨wri, rfl⟩ := Option.isSome_iff_exists.mp (hrs .right)
  obtain ⟨wlf, rfl⟩ := Option.isSome_iff_exists.mp (hrs .lidFlap)
  obtain ⟨wlef, rfl⟩ := Option.isSome_iff_exists.mp (hrs .leftFlap)
  obtain ⟨wrif, rfl⟩ := Option.isSome_iff_exists.mp (hrs .rightFlap)
  obtain ⟨wfr, rfl⟩ := Option.isSome_iff_exists.mp (hrs .front)
  obtain ⟨wa1, rfl⟩ := Option.isSome_iff_exists.mp (hrs .lidLeftFlap)
  obtain ⟨wa2, rfl⟩ := Option.isSome_iff_exists.mp (hrs .lidRightFlap)
  obtain ⟨wa3, rfl⟩ := Option.isSome_iff_exists.mp (hrs .leftBottomFlap)
  obtain ⟨wa4, rfl⟩ := Option.isSome_iff_exists.mp (hrs .rightBottomFlap)
  rfl

end UnfoldController

/-- Modelled from the spec: `createGeometry` never creates the panels
`lidLeftFlap`, `lidRightFlap`, `leftBottomFlap` and `rightBottomFlap`
although `UnfoldController.update` rotates them; §4.2 of the spec places
every flap with its local origin on the hinge edge shared with its parent,
so the two lid side flaps sit on the lid's side edges and the two bottom
flaps on the side panels' bottom edges, unrotated at rest. -/
def specExtraFlaps (dims : Dims) (ps : Panels) : Panels :=
  { ps with
    lidLeftFlap := some (TrapezoidBox.mkPose ⟨-dims.tw / 2, 0, 0⟩ TrapezoidBox.eulZero)
    lidRightFlap := some (TrapezoidBox.mkPose ⟨dims.tw / 2, 0, 0⟩ TrapezoidBox.eulZero)
    leftBottomFlap := some
      (TrapezoidBox.mkPose ⟨0, -(TrapezoidBox.slantHeight dims / 2), 0⟩ TrapezoidBox.eulZero)
    rightBottomFlap := some
      (TrapezoidBox.mkPose ⟨0, -(TrapezoidBox.slantHeight dims / 2), 0⟩ TrapezoidBox.eulZero) }

/-- The hierarchy `createGeometry` builds, completed with the four
spec-modelled flaps that `update` expects to find. -/
def completedGeometry (dims : Dims) : Panels :=
  specExtraFlaps dims (TrapezoidBox.createGeometry dims)

/-- The empty `this.restPose` table (before the constructor runs). -/
def emptyRests : Rests :=
  ⟨none, none, none, none, none, none, none, none, none, none, none, none, none⟩

namespace UnfoldController

/-- Controller construction over a given panels dictionary: the constructor
stores the box and calls `saveRestPose()`. -/
def mkController (ps : Panels) (dims : Dims) : State :=
  saveRestPose ⟨ps, emptyRests, dims, 0⟩

/-- The program as shipped: controller over the nine panels `createGeometry`
actually builds. -/
def initReal (dims : Dims) : State := mkController (TrapezoidBox.createGeometry dims) dims

/-- Controller over the spec-completed hierarchy. -/
def initComplete (dims : Dims) : State := mkController (completedGeometry dims) dims

/-- Fold table of the specification, one row per panel, worded from the
claim: every panel starts from its stored rest pose; Lid turns by
`-openAmount·90°` about the box-width axis at `(0, height/2, -depth/2)`;
Bottom by `+openAmount·90°` at `(0, -height/2, -depth/2)`; Left by
`+(90° + closeProgress·90°)` about the direction of the back panel's left
slanted edge at the back bottom-left corner; Right mirrored by
`-(90° + closeProgress·90°)`; every remaining row is a rotation about the
panel's own origin with the tabulated angle. -/
def claimFoldPanels (dims : Dims) (p : ℝ) (rs : Rests) : Panels :=
  let closeProgress := Easing.easeInOutCubic p
  let openAmount := 1 - closeProgress
  let backBottomLeft : V3 := ⟨-dims.bw / 2, -(dims.h / 2), -dims.d / 2⟩
  let backTopLeft : V3 := ⟨-dims.tw / 2, dims.h / 2, -dims.d / 2⟩
  let backBottomRight : V3 := ⟨dims.bw / 2, -(dims.h / 2), -dims.d / 2⟩
  let backTopRight : V3 := ⟨dims.tw / 2, dims.h / 2, -dims.d / 2⟩
  { back := rs.back.map RestPose.restore
    lid := rs.lid.map (fun r =>
      rotateAroundPivot r.restore ⟨0, dims.h / 2, -dims.d / 2⟩ ⟨1, 0, 0⟩
        (-(openAmount * (Real.pi / 2))))
    bottom := rs.bottom.map (fun r =>
      rotateAroundPivot r.restore ⟨0, -(dims.h / 2), -dims.d / 2⟩ ⟨1, 0, 0⟩
        (openAmount * (Real.pi / 2)))
    left := rs.left.map (fun r =>
      rotateAroundPivot r.restore backBottomLeft
        ((backTopLeft.sub backBottomLeft).normalize)
        (Real.pi / 2 + closeProgress * (Real.pi / 2)))
    right := rs.right.map (fun r =>
      rotateAroundPivot r.restore backBottomRight
        ((backTopRight.sub backBottomRight).normalize)
        (-(Real.pi / 2 + closeProgress * (Real.pi / 2))))
    lidFlap := rs.lidFlap.map (fun r =>
      setEulX r.restore (Real.pi / 2 * closeProgress))
    lidLeftFlap := rs.lidLeftFlap.map (fun r =>
      setEulY r.restore (Real.pi / 2 * closeProgress))
    lidRightFlap := rs.lidRightFlap.map (fun r =>
      setEulY r.restore (-Real.pi / 2 * closeProgress))
    front := rs.front.map (fun r =>
      setEulX r.restore (-Real.pi / 2 * closeProgress))
    leftFlap := rs.leftFlap.map (fun r =>
      setEulY r.restore (Real.pi / 4 + closeProgress * (Real.pi / 4)))
    rightFlap := rs.rightFlap.map (fun r =>
      setEulY r.restore (-Real.pi / 4 - closeProgress * (Real.pi / 4)))
    leftBottomFlap := rs.leftBottomFlap.map (fun r =>
      setEulX r.restore (Real.pi / 2 * closeProgress))
    rightBottomFlap := rs.rightBottomFlap.map (fun r =>
      setEulX r.restore (Real.pi / 2 * closeProgress)) }

end UnfoldController

namespace UnfoldController

set_option maxHeartbeats 1000000 in
/-- C1: for every progress value and every panel, `UnfoldController.update`
first restores the panel's stored rest pose and then applies that panel's
fixed fold law via a single pivot rotation, with `closeProgress = ease(p)`
and `openAmount = 1 - closeProgress`: Lid by `-openAmount·90°` about the
box-width axis at `(0, h/2, -d/2)`; Bottom by `+openAmount·90°` at
`(0, -h/2, -d/2)`; Left by `+(90° + closeProgress·90°)` about the direction
of the back panel's left slanted edge at the back bottom-left corner; Right
by the mirrored `-(90° + closeProgress·90°)`; each remaining row a rotation
about the panel's own origin with the tabulated angle — where the pivot
rotation maps the position to `pivot + R(pos - pivot)` and composes the
orientation with the same world-axis rotation. -/
theorem update_applies_claimed_fold_law (s : State) (p : ℝ)
    (hps : ∀ i, (s.panels.get i).isSome) (hrs : ∀ i, (s.rest.get i).isSome) :
    update s p = Except.ok ⟨claimFoldPanels s.dims p s.rest, s.rest, s.dims, p⟩ := by
  rw [update_eq_ok s p hps hrs]
  rcases s with ⟨ps, rs, dims, pr0⟩
  rcases ps with ⟨b, bo, l, le, ri, lf, lef, rif, fr, a1, a2, a3, a4⟩
  rcases rs with ⟨rb, rbo, rl, rle, rri, rlf, rlef, rrif, rfr, ra1, ra2, ra3, ra4⟩
  obtain ⟨vb, rfl⟩ := Option.isSome_iff_exists.mp (hps .back)
  obtain ⟨vbo, rfl⟩ := Option.isSome_iff_exists.mp (hps .bottom)
  obtain ⟨vl, rfl⟩ := Option.isSome_iff_exists.mp (hps .lid)
  obtain ⟨vle, rfl⟩ := Option.isSome_iff_exists.mp (hps .left)
  obtain ⟨vri, rfl⟩ := Option.isSome_iff_exists.mp (hps .right)
  obtain ⟨vlf, rfl⟩ := Option.isSome_iff_exists.mp (hps .lidFlap)
  obtain ⟨vlef, rfl⟩ := Option.isSome_iff_exists.mp (hps .leftFlap)
  obtain ⟨vrif, rfl⟩ := Option.isSome_iff_exists.mp (hps .rightFlap)
  obtain ⟨vfr, rfl⟩ := Option.isSome_iff_exists.mp (hps .front)
  obtain ⟨va1, rfl⟩ := Option.isSome_iff_exists.mp (hps .lidLeftFlap)
  obtain ⟨va2, rfl⟩ := Option.isSome_iff_exists.mp (hps .lidRightFlap)
  obtain ⟨va3, rfl⟩ := Option.isSome_iff_exists.mp (hps .leftBottomFlap)
  obtain ⟨va4, rfl⟩ := Option.isSome_iff_exists.mp (hps .rightBottomFlap)
  obtain ⟨wb, rfl⟩ := Option.isSome_iff_exists.mp (hrs .back)
  obtain ⟨wbo, rfl⟩ := Option.isSome_iff_exists.mp (hrs .bottom)
  obtain ⟨wl, rfl⟩ := Option.isSome_iff_exists.mp (hrs .lid)
  obtain ⟨wle, rfl⟩ := Option.isSome_iff_exists.mp (hrs .left)
  obtain ⟨wri, rfl⟩ := Option.isSome_iff_exists.mp (hrs .right)
  obtain ⟨wlf, rfl⟩ := Option.isSome_iff_exists.mp (hrs .lidFlap)
  obtain ⟨wlef, rfl⟩ := Option.isSome_iff_exists.mp (hrs .leftFlap)
  obtain ⟨wrif, rfl⟩ := Option.isSome_iff_exists.mp (hrs .rightFlap)
  obtain ⟨wfr, rfl⟩ := Option.isSome_iff_exists.mp (hrs .front)
  obtain ⟨wa1, rfl⟩ := Option.isSome_iff_exists.mp (hrs .lidLeftFlap)
  obtain ⟨wa2, rfl⟩ := Option.isSome_iff_exists.mp (hrs .lidRightFlap)
  obtain ⟨wa3, rfl⟩ := Option.isSome_iff_exists.mp (hrs .leftBottomFlap)
  obtain ⟨wa4, rfl⟩ := Option.isSome_iff_exists.mp (hrs .rightBottomFlap)
  rfl

/-- Witness for C1 at the default dimensions and progress `1/2`. -/
theorem update_applies_claimed_fold_law_witness :
    update (initComplete defaultDims) (1 / 2) = Except.ok
      ⟨claimFoldPanels (initComplete defaultDims).dims (1 / 2) (initComplete defaultDims).rest,
        (initComplete defaultDims).rest, (initComplete defaultDims).dims, 1 / 2⟩ :=
  update_applies_claimed_fold_law (initComplete defaultDims) (1 / 2)
    (fun i => by cases i <;> rfl) (fun i => by cases i <;> rfl)

end UnfoldController

namespace UnfoldController

/-- Fold angle the engine actually wrote for a panel, read back from the
updated panels: the Euler component written for the flap/front rows, the
world-axis rotation angle for the four pivot rows, `0` for the motionless
back panel. -/
def foldAngleAt (dims : Dims) (p : ℝ) (i : PanelId) : ℝ :=
  let q := enginePanels dims p (completedGeometry dims)
  let m := (q.get i).getD (TrapezoidBox.mkPose V3.zero TrapezoidBox.eulZero)
  match i with
  | .back => 0
  | .lid | .bottom | .left | .right =>
    match m.spins with
    | a :: _ => a.angle
    | [] => 0
  | .lidFlap | .front | .leftBottomFlap | .rightBottomFlap => m.eul.x
  | .lidLeftFlap | .lidRightFlap | .leftFlap | .rightFlap => m.eul.y

/-- Sign of each fold-table row: `+1` where the tabulated angle grows with
progress, `-1` where it falls. -/
def foldSign : PanelId → ℝ
  | .back => 1
  | .lid => 1
  | .bottom => -1
  | .left => 1
  | .right => -1
  | .lidFlap => 1
  | .lidLeftFlap => 1
  | .lidRightFlap => -1
  | .front => -1
  | .leftFlap => 1
  | .rightFlap => -1
  | .leftBottomFlap => 1
  | .rightBottomFlap => 1

lemma mono_affine_ease {c0 c1 : ℝ} (h : 0 ≤ c1) :
    Monotone (fun p => c0 + c1 * Easing.easeInOutCubic p) := by
  intro a b hab
  have := Easing.easeInOutCubic_monotone hab
  simp only
  nlinarith

lemma cont_affine_ease (c0 c1 : ℝ) :
    Continuous (fun p => c0 + c1 * Easing.easeInOutCubic p) :=
  continuous_const.add (continuous_const.mul Easing.easeInOutCubic_continuous)

end UnfoldController

namespace UnfoldController

/-- Constant part of each tabulated angle law. -/
def angleC0 : PanelId → ℝ
  | .back => 0
  | .lid => -(Real.pi / 2)
  | .bottom => Real.pi / 2
  | .left => Real.pi / 2
  | .right => -(Real.pi / 2)
  | .lidFlap => 0
  | .lidLeftFlap => 0
  | .lidRightFlap => 0
  | .front => 0
  | .leftFlap => Real.pi / 4
  | .rightFlap => -(Real.pi / 4)
  | .leftBottomFlap => 0
  | .rightBottomFlap => 0

/-- Coefficient of `closeProgress` in each tabulated angle law. -/
def angleC1 : PanelId → ℝ
  | .back => 0
  | .lid => Real.pi / 2
  | .bottom => -(Real.pi / 2)
  | .left => Real.pi / 2
  | .right => -(Real.pi / 2)
  | .lidFlap => Real.pi / 2
  | .lidLeftFlap => Real.pi / 2
  | .lidRightFlap => -(Real.pi / 2)
  | .front => -(Real.pi / 2)
  | .leftFlap => Real.pi / 4
  | .rightFlap => -(Real.pi / 4)
  | .leftBottomFlap => Real.pi / 2
  | .rightBottomFlap => Real.pi / 2

set_option maxHeartbeats 1000000 in
/-- Every fold angle the engine writes is affine in the eased progress. -/
lemma foldAngleAt_eq (dims : Dims) (p : ℝ) (i : PanelId) :
    foldAngleAt dims p i = angleC0 i + angleC1 i * Easing.easeInOutCubic p := by
  cases i <;>
    simp [foldAngleAt, enginePanels, completedGeometry, specExtraFlaps,
      TrapezoidBox.createGeometry, Panels.get, setEulX, setEulY, rotateAroundPivot,
      TrapezoidBox.mkPose, angleC0, angleC1] <;> ring

/-- Sign times slope is never negative: each row moves the way the table
says. -/
lemma foldSign_mul_angleC1_nonneg (i : PanelId) : 0 ≤ foldSign i * angleC1 i := by
  have hp := Real.pi_pos
  cases i <;> simp [foldSign, angleC1] <;> positivity

end UnfoldController

/-- C7: the easing function satisfies `ease 0 = 0`, `ease 1 = 1`, maps
`[0,1]` into `[0,1]`, and is monotone and continuous on `[0,1]`; and each
panel's fold angle, as written by the engine, is a continuous function of
progress and monotone with the sign given by the fold table. -/
theorem easing_and_fold_angles_monotone :
    Easing.easeInOutCubic 0 = 0 ∧ Easing.easeInOutCubic 1 = 1 ∧
    (∀ t, 0 ≤ t → t ≤ 1 → Easing.easeInOutCubic t ∈ Set.Icc (0 : ℝ) 1) ∧
    MonotoneOn Easing.easeInOutCubic (Set.Icc 0 1) ∧
    ContinuousOn Easing.easeInOutCubic (Set.Icc 0 1) ∧
    (∀ dims i, Continuous (fun p => UnfoldController.foldAngleAt dims p i)) ∧
    (∀ dims i, MonotoneOn
      (fun p => UnfoldController.foldSign i * UnfoldController.foldAngleAt dims p i)
      (Set.Icc (0 : ℝ) 1)) := by
  refine ⟨Easing.easeInOutCubic_zero, Easing.easeInOutCubic_one,
    fun t h0 h1 => Easing.easeInOutCubic_mem_Icc h0 h1,
    Easing.easeInOutCubic_monotone.monotoneOn _,
    Easing.easeInOutCubic_continuous.continuousOn, ?_, ?_⟩
  · intro dims i
    have h : (fun p => UnfoldController.foldAngleAt dims p i) =
        fun p => UnfoldController.angleC0 i +
          UnfoldController.angleC1 i * Easing.easeInOutCubic p :=
      funext fun p => UnfoldController.foldAngleAt_eq dims p i
    rw [h]
    exact UnfoldController.cont_affine_ease _ _
  · intro dims i x _ y _ hxy
    have he := Easing.easeInOutCubic_monotone hxy
    have hs := UnfoldController.foldSign_mul_angleC1_nonneg i
    simp only [UnfoldController.foldAngleAt_eq]
    nlinarith

/-- Witness for C7: the hypothesis-bearing range clause at `t = 1/2`. -/
theorem easing_and_fold_angles_monotone_witness :
    Easing.easeInOutCubic (1 / 2) ∈ Set.Icc (0 : ℝ) 1 :=
  easing_and_fold_angles_monotone.2.2.1 (1 / 2) (by norm_num) (by norm_num)

/-- C8: for positive dimensions the derived quantities equal the stated
formulas, and at the numeric example `30, 20, 25, 15, 2` they evaluate to
`dx = 5`, `slantHeight = √650`, `totalWidth ≈ 84.99`, `totalHeight = 59`,
`areaBack = 625`. -/
theorem spec_quantities_formulas :
    (∀ q : Dims, 0 < q.tw → 0 < q.bw → 0 < q.h → 0 < q.d → 0 ≤ q.fw →
      Specs.dxOf q = (q.tw - q.bw) / 2 ∧
      Specs.slantH q = Real.sqrt (Specs.dxOf q ^ 2 + q.h ^ 2) ∧
      TrapezoidBox.slantAngle q = Real.arctan (Specs.dxOf q / q.h) ∧
      Specs.totalW q = q.tw + 2 * (Specs.slantH q + q.fw) ∧
      Specs.totalH q = 2 * q.fw + 2 * q.d + q.h ∧
      Specs.totalArea q = Specs.areaBack q + Specs.areaBottom q + Specs.areaLid q +
        2 * q.d * Specs.slantH q + Specs.areaFlaps q ∧
      Specs.areaBack q = q.h * (q.tw + q.bw) / 2) ∧
    Specs.dxOf defaultDims = 5 ∧
    Specs.slantH defaultDims = Real.sqrt 650 ∧
    |Specs.totalW defaultDims - 84.99| < 0.01 ∧
    Specs.totalH defaultDims = 59 ∧
    Specs.areaBack defaultDims = 625 := by
  have hd : Specs.dxOf defaultDims = 5 := by norm_num [Specs.dxOf, defaultDims]
  have hs : Specs.slantH defaultDims = Real.sqrt 650 := by
    rw [Specs.slantH, hd]
    norm_num [defaultDims]
  refine ⟨?_, hd, hs, ?_, by norm_num [Specs.totalH, defaultDims],
    by norm_num [Specs.areaBack, defaultDims]⟩
  · intro q _ _ _ _ _
    refine ⟨rfl, ?_, rfl, rfl, by rw [Specs.totalH]; ring, ?_, rfl⟩
    · rw [Specs.slantH]
      congr 1
      ring
    · rw [Specs.totalArea, Specs.areaSides]
      ring
  · have h1 : (25.495 : ℝ) < Real.sqrt 650 := by
      rw [show (25.495 : ℝ) = Real.sqrt (25.495 ^ 2) by
        rw [Real.sqrt_sq]; norm_num]
      apply Real.sqrt_lt_sqrt <;> norm_num
    have h2 : Real.sqrt 650 < 25.4951 := by
      rw [show (25.4951 : ℝ) = Real.sqrt (25.4951 ^ 2) by
        rw [Real.sqrt_sq]; norm_num]
      apply Real.sqrt_lt_sqrt <;> norm_num
    rw [Specs.totalW, hs]
    rw [abs_lt]
    constructor <;> norm_num [defaultDims] <;> nlinarith

/-- Witness for C8: the universal formula clause at the default
dimensions. -/
theorem spec_quantities_formulas_witness :
    Specs.totalH defaultDims = 2 * defaultDims.fw + 2 * defaultDims.d + defaultDims.h :=
  (spec_quantities_formulas.1 defaultDims (by norm_num [defaultDims])
    (by norm_num [defaultDims]) (by norm_num [defaultDims])
    (by norm_num [defaultDims]) (by norm_num [defaultDims])).2.2.2.2.1

/-- Truthiness of `Except.ok` (did the call return normally?). -/
def exceptIsOk {e a : Type} : Except e a → Bool
  | .ok _ => true
  | .error _ => false

/-- Panels of a successful engine call (all-`none` on a thrown call). -/
def panelsOf (r : Except String UnfoldController.State) : Panels :=
  match r with
  | .ok s => s.panels
  | .error _ =>
    ⟨none, none, none, none, none, none, none, none, none, none, none, none, none⟩

@[ext] theorem Panels.ext_panels {a b : Panels}
    (h1 : a.back = b.back) (h2 : a.bottom = b.bottom) (h3 : a.lid = b.lid)
    (h4 : a.left = b.left) (h5 : a.right = b.right) (h6 : a.lidFlap = b.lidFlap)
    (h7 : a.leftFlap = b.leftFlap) (h8 : a.rightFlap = b.rightFlap)
    (h9 : a.front = b.front) (h10 : a.lidLeftFlap = b.lidLeftFlap)
    (h11 : a.lidRightFlap = b.lidRightFlap) (h12 : a.leftBottomFlap = b.leftBottomFlap)
    (h13 : a.rightBottomFlap = b.rightBottomFlap) : a = b := by
  cases a; cases b; simp_all

/-- C10: `updateDimensions` never raises at the parameter boundary — each of
the five dimensions is overwritten with the supplied value exactly when that
value is truthy (nonzero); a zero or missing field silently keeps the stored
value; a negative value is accepted and applied; and in every case the
geometry is rebuilt from the resulting dimensions. -/
theorem updateDimensions_truthy_merge (b : TrapezoidBox.Box) (ps : TrapezoidBox.UParams) :
    ((∀ v : ℝ, ps.topWidth = some v → v ≠ 0 →
        (TrapezoidBox.updateDimensions b ps).dims.tw = v) ∧
      (ps.topWidth = some 0 ∨ ps.topWidth = none →
        (TrapezoidBox.updateDimensions b ps).dims.tw = b.dims.tw)) ∧
    ((∀ v : ℝ, ps.bottomWidth = some v → v ≠ 0 →
        (TrapezoidBox.updateDimensions b ps).dims.bw = v) ∧
      (ps.bottomWidth = some 0 ∨ ps.bottomWidth = none →
        (TrapezoidBox.updateDimensions b ps).dims.bw = b.dims.bw)) ∧
    ((∀ v : ℝ, ps.height = some v → v ≠ 0 →
        (TrapezoidBox.updateDimensions b ps).dims.h = v) ∧
      (ps.height = some 0 ∨ ps.height = none →
        (TrapezoidBox.updateDimensions b ps).dims.h = b.dims.h)) ∧
    ((∀ v : ℝ, ps.depth = some v → v ≠ 0 →
        (TrapezoidBox.updateDimensions b ps).dims.d = v) ∧
      (ps.depth = some 0 ∨ ps.depth = none →
        (TrapezoidBox.updateDimensions b ps).dims.d = b.dims.d)) ∧
    ((∀ v : ℝ, ps.flapWidth = some v → v ≠ 0 →
        (TrapezoidBox.updateDimensions b ps).dims.fw = v) ∧
      (ps.flapWidth = some 0 ∨ ps.flapWidth = none →
        (TrapezoidBox.updateDimensions b ps).dims.fw = b.dims.fw)) ∧
    (TrapezoidBox.updateDimensions b ps).panels =
      TrapezoidBox.createGeometry (TrapezoidBox.updateDimensions b ps).dims := by
  refine ⟨⟨?_, ?_⟩, ⟨?_, ?_⟩, ⟨?_, ?_⟩, ⟨?_, ?_⟩, ⟨?_, ?_⟩, rfl⟩ <;>
    first
    | (intro v hv hne
       simp [TrapezoidBox.updateDimensions, TrapezoidBox.mergeDims, TrapezoidBox.jsTruthyOr, hv, hne])
    | (rintro (hv | hv) <;>
       simp [TrapezoidBox.updateDimensions, TrapezoidBox.mergeDims, TrapezoidBox.jsTruthyOr, hv])

/-- Witness for C10: a zero height is kept, a negative height is applied. -/
theorem updateDimensions_truthy_merge_witness :
    (TrapezoidBox.updateDimensions ⟨defaultDims, TrapezoidBox.createGeometry defaultDims⟩
      ⟨none, none, some (-5), none, none⟩).dims.h = -5 ∧
    (TrapezoidBox.updateDimensions ⟨defaultDims, TrapezoidBox.createGeometry defaultDims⟩
      ⟨none, none, some 0, none, none⟩).dims.h = defaultDims.h :=
  ⟨(updateDimensions_truthy_merge ⟨defaultDims, TrapezoidBox.createGeometry defaultDims⟩
      ⟨none, none, some (-5), none, none⟩).2.2.1.1 (-5) rfl (by norm_num),
    (updateDimensions_truthy_merge ⟨defaultDims, TrapezoidBox.createGeometry defaultDims⟩
      ⟨none, none, some 0, none, none⟩).2.2.1.2 (Or.inl rfl)⟩

/-- Counterexample to C6: `updateDimensions` is a total function — there is
no validation and no `InvalidParameter` path. Called with `height = 0` and
`topWidth = 50` on the default box it returns normally, silently keeps the
old height, and still applies the other mutation (so the rejection is not
atomic either); called with `height = -5` it applies the negative height. -/
theorem updateDimensions_no_validation_counterexample :
    (TrapezoidBox.updateDimensions ⟨defaultDims, TrapezoidBox.createGeometry defaultDims⟩
      ⟨some 50, none, some 0, none, none⟩).dims = ⟨50, 20, 25, 15, 2⟩ ∧
    (TrapezoidBox.updateDimensions ⟨defaultDims, TrapezoidBox.createGeometry defaultDims⟩
      ⟨none, none, some (-5), none, none⟩).dims = ⟨30, 20, -5, 15, 2⟩ := by
  constructor <;> ext <;>
    norm_num [TrapezoidBox.updateDimensions, TrapezoidBox.mergeDims, TrapezoidBox.jsTruthyOr, defaultDims]

/-- C6 as amended: `updateDimensions` validates nothing and cannot raise —
a supplied nonzero height (negative included) is applied, a zero height
silently keeps the previous value, and the hierarchy is always rebuilt from
the resulting dimensions. -/
theorem updateDimensions_accepts_invalid (b : TrapezoidBox.Box) (v : ℝ) (hv : v ≠ 0) :
    (TrapezoidBox.updateDimensions b ⟨none, none, some v, none, none⟩).dims.h = v ∧
    (TrapezoidBox.updateDimensions b ⟨none, none, some 0, none, none⟩).dims.h = b.dims.h ∧
    (TrapezoidBox.updateDimensions b ⟨none, none, some v, none, none⟩).panels =
      TrapezoidBox.createGeometry
        (TrapezoidBox.updateDimensions b ⟨none, none, some v, none, none⟩).dims := by
  refine ⟨?_, ?_, rfl⟩ <;> simp [TrapezoidBox.updateDimensions, TrapezoidBox.mergeDims, TrapezoidBox.jsTruthyOr, hv]

/-- Witness for the amended C6 at `height = -5`. -/
theorem updateDimensions_accepts_invalid_witness :
    (TrapezoidBox.updateDimensions ⟨defaultDims, TrapezoidBox.createGeometry defaultDims⟩
      ⟨none, none, some (-5), none, none⟩).dims.h = -5 ∧
    (TrapezoidBox.updateDimensions ⟨defaultDims, TrapezoidBox.createGeometry defaultDims⟩
      ⟨none, none, some 0, none, none⟩).dims.h =
      (⟨defaultDims, TrapezoidBox.createGeometry defaultDims⟩ : TrapezoidBox.Box).dims.h ∧
    (TrapezoidBox.updateDimensions ⟨defaultDims, TrapezoidBox.createGeometry defaultDims⟩
      ⟨none, none, some (-5), none, none⟩).panels =
      TrapezoidBox.createGeometry
        (TrapezoidBox.updateDimensions ⟨defaultDims, TrapezoidBox.createGeometry defaultDims⟩
          ⟨none, none, some (-5), none, none⟩).dims :=
  updateDimensions_accepts_invalid ⟨defaultDims, TrapezoidBox.createGeometry defaultDims⟩
    (-5) (by norm_num)

set_option maxHeartbeats 1000000 in
/-- C3 fails on the code: `createGeometry` never stores the four flap panels
the fold table (and `update` itself) refers to, and the four articulated main
panels are siblings of Back inside the group rather than its children; as a
consequence the engine call `update(0)` made by `init()` in `app.js` throws
on the shipped hierarchy. -/
theorem createGeometry_missing_flaps :
    (TrapezoidBox.createGeometry defaultDims).lidLeftFlap = none ∧
    (TrapezoidBox.createGeometry defaultDims).lidRightFlap = none ∧
    (TrapezoidBox.createGeometry defaultDims).leftBottomFlap = none ∧
    (TrapezoidBox.createGeometry defaultDims).rightBottomFlap = none ∧
    TrapezoidBox.parentOf PanelId.lid = none ∧
    TrapezoidBox.parentOf PanelId.bottom = none ∧
    TrapezoidBox.parentOf PanelId.left = none ∧
    TrapezoidBox.parentOf PanelId.right = none ∧
    UnfoldController.update (UnfoldController.initReal defaultDims) 0 =
      Except.error "TypeError: cannot read properties of undefined" :=
  ⟨rfl, rfl, rfl, rfl, rfl, rfl, rfl, rfl, rfl⟩

set_option maxHeartbeats 1000000 in
/-- Counterexample to C9: on a hierarchy whose every panel object exists but
whose `lid` entry has no stored rest pose, `update` does not raise — the
reset loop's `if (!rest) continue;` silently skips that panel and the call
returns normally. -/
theorem update_missing_rest_no_error_counterexample :
    exceptIsOk (UnfoldController.update
      { UnfoldController.initComplete defaultDims with
        rest := { (UnfoldController.initComplete defaultDims).rest with lid := none } }
      0) = true :=
  rfl

set_option maxHeartbeats 1000000 in
/-- C9 as amended: a present panel with a missing rest pose is silently
skipped by the reset loop, and `update` continues, applying the fold law on
top of whatever pose the panel currently holds (here a lid parked at
`(1,2,3)`, manifestly not its rest pose, still pivot-rotated from there);
only a missing panel object makes the call throw. -/
theorem update_skips_missing_rest (dims : Dims) (p : ℝ) (w : V3) :
    exceptIsOk (UnfoldController.update
      { UnfoldController.initComplete dims with
        panels := { (UnfoldController.initComplete dims).panels with
          lid := some (TrapezoidBox.mkPose w TrapezoidBox.eulZero) }
        rest := { (UnfoldController.initComplete dims).rest with lid := none } }
      p) = true ∧
    (panelsOf (UnfoldController.update
      { UnfoldController.initComplete dims with
        panels := { (UnfoldController.initComplete dims).panels with
          lid := some (TrapezoidBox.mkPose w TrapezoidBox.eulZero) }
        rest := { (UnfoldController.initComplete dims).rest with lid := none } }
      p)).lid =
      some (UnfoldController.rotateAroundPivot
        (TrapezoidBox.mkPose w TrapezoidBox.eulZero)
        ⟨0, dims.h / 2, -dims.d / 2⟩ ⟨1, 0, 0⟩
        (-((1 - Easing.easeInOutCubic p) * (Real.pi / 2)))) :=
  ⟨rfl, rfl⟩

set_option maxHeartbeats 1000000 in
/-- Counterexample to C5: nothing clamps the progress — the slider handler
passes `val/100` straight to `update`, and `update` feeds the raw value to the
easing polynomial, so `update(-0.5)` writes a lidFlap fold angle of
`π/2·ease(-0.5) = -π/4`, different from the `0` written by `update(0)`. -/
theorem setProgress_no_clamp_counterexample :
    ((panelsOf (UnfoldController.update (UnfoldController.initComplete defaultDims)
          (-(1 / 2)))).lidFlap.getD
        (TrapezoidBox.mkPose V3.zero TrapezoidBox.eulZero)).eul.x ≠
      ((panelsOf (UnfoldController.update (UnfoldController.initComplete defaultDims)
          0)).lidFlap.getD
        (TrapezoidBox.mkPose V3.zero TrapezoidBox.eulZero)).eul.x := by
  intro h
  have h' : Real.pi / 2 * Easing.easeInOutCubic (-(1 / 2)) =
      Real.pi / 2 * Easing.easeInOutCubic 0 := h
  rw [Easing.easeInOutCubic_zero] at h'
  have he : Easing.easeInOutCubic (-(1 / 2)) = -(1 / 2) := by
    norm_num [Easing.easeInOutCubic]
  rw [he] at h'
  have := Real.pi_ne_zero
  field_simp at h'
  exact this h'

/-- C5 as amended: `update` applies the fold formulas to the raw progress
without clamping, so out-of-range values extrapolate the same laws: for any
`v < 0` the written lidFlap angle lies strictly below the `progress = 0`
angle, and for any `w > 1` strictly above the `progress = 1` angle. -/
theorem update_extrapolates_out_of_range (dims : Dims) (v w : ℝ)
    (hv : v < 0) (hw : 1 < w) :
    UnfoldController.foldAngleAt dims v PanelId.lidFlap <
      UnfoldController.foldAngleAt dims 0 PanelId.lidFlap ∧
    UnfoldController.foldAngleAt dims 1 PanelId.lidFlap <
      UnfoldController.foldAngleAt dims w PanelId.lidFlap := by
  have hpi := Real.pi_pos
  have hv' : Easing.easeInOutCubic v < 0 := by
    have : Easing.easeInOutCubic v = 4 * v * v * v := by
      rw [Easing.easeInOutCubic, if_pos (by linarith)]
    rw [this]
    have hnv : 0 < -v := by linarith
    nlinarith [mul_pos (mul_pos hnv hnv) hnv]
  have hw' : 1 < Easing.easeInOutCubic w := by
    have : Easing.easeInOutCubic w = 1 - (-2 * w + 2) ^ 3 / 2 := by
      rw [Easing.easeInOutCubic, if_neg (by push_neg; linarith)]
    rw [this]
    have h2 : 0 < 2 * w - 2 := by linarith
    nlinarith [mul_pos (mul_pos h2 h2) h2]
  constructor <;>
    simp only [UnfoldController.foldAngleAt_eq, UnfoldController.angleC0,
      UnfoldController.angleC1, Easing.easeInOutCubic_zero, Easing.easeInOutCubic_one] <;>
    nlinarith

/-- Witness for the amended C5 at `v = -1/2`, `w = 3/2`. -/
theorem update_extrapolates_out_of_range_witness :
    UnfoldController.foldAngleAt defaultDims (-(1 / 2)) PanelId.lidFlap <
      UnfoldController.foldAngleAt defaultDims 0 PanelId.lidFlap ∧
    UnfoldController.foldAngleAt defaultDims 1 PanelId.lidFlap <
      UnfoldController.foldAngleAt defaultDims (3 / 2) PanelId.lidFlap :=
  update_extrapolates_out_of_range defaultDims (-(1 / 2)) (3 / 2)
    (by norm_num) (by norm_num)

/-- JavaScript `v || (v || old)` collapses to `v || old`. -/
lemma jsTruthyOr_idem (v : Option ℝ) (old : ℝ) :
    TrapezoidBox.jsTruthyOr v (TrapezoidBox.jsTruthyOr v old) =
      TrapezoidBox.jsTruthyOr v old := by
  cases v with
  | none => rfl
  | some x =>
    by_cases hx : x = 0 <;> simp [TrapezoidBox.jsTruthyOr, hx]

set_option maxHeartbeats 1000000 in
/-- C4: the build and the engine are history-free. Rebuilding with identical
parameters is idempotent and depends only on the stored dimensions; running
the engine at `q` and then at `p` leaves exactly the single-run `update(p)`
state; and after computing poses from any prior state, rebuilding with
identical dimensions and re-running at the same progress reproduces the
fresh-pipeline result. -/
theorem engine_and_rebuild_history_free :
    (∀ (b : TrapezoidBox.Box) (ps : TrapezoidBox.UParams),
      TrapezoidBox.updateDimensions (TrapezoidBox.updateDimensions b ps) ps =
        TrapezoidBox.updateDimensions b ps) ∧
    (∀ (b1 b2 : TrapezoidBox.Box) (ps : TrapezoidBox.UParams), b1.dims = b2.dims →
      TrapezoidBox.updateDimensions b1 ps = TrapezoidBox.updateDimensions b2 ps) ∧
    (∀ (s : UnfoldController.State) (p q : ℝ),
      (∀ i, (s.panels.get i).isSome) → (∀ i, (s.rest.get i).isSome) →
      (UnfoldController.update s q).bind (fun s1 => UnfoldController.update s1 p) =
        UnfoldController.update s p) ∧
    (∀ (s : UnfoldController.State) (dims : Dims) (p : ℝ),
      UnfoldController.update
        (UnfoldController.saveRestPose
          { s with dims := dims, panels := completedGeometry dims }) p =
        UnfoldController.update
          (UnfoldController.mkController (completedGeometry dims) dims) p) := by
  refine ⟨?_, ?_, ?_, ?_⟩
  · intro b ps
    have hdims : TrapezoidBox.mergeDims (TrapezoidBox.mergeDims b.dims ps) ps =
        TrapezoidBox.mergeDims b.dims ps := by
      ext <;> simp [TrapezoidBox.mergeDims, jsTruthyOr_idem]
    simp only [TrapezoidBox.updateDimensions]
    rw [hdims]
  · intro b1 b2 ps h
    simp only [TrapezoidBox.updateDimensions, h]
  · intro s p q hps hrs
    rcases s with ⟨ps, rs, dims, pr0⟩
    rcases ps with ⟨b, bo, l, le, ri, lf, lef, rif, fr, a1, a2, a3, a4⟩
    rcases rs with ⟨rb, rbo, rl, rle, rri, rlf, rlef, rrif, rfr, ra1, ra2, ra3, ra4⟩
    obtain ⟨vb, rfl⟩ := Option.isSome_iff_exists.mp (hps .back)
    obtain ⟨vbo, rfl⟩ := Option.isSome_iff_exists.mp (hps .bottom)
    obtain ⟨vl, rfl⟩ := Option.isSome_iff_exists.mp (hps .lid)
    obtain ⟨vle, rfl⟩ := Option.isSome_iff_exists.mp (hps .left)
    obtain ⟨vri, rfl⟩ := Option.isSome_iff_exists.mp (hps .right)
    obtain ⟨vlf, rfl⟩ := Option.isSome_iff_exists.mp (hps .lidFlap)
    obtain ⟨vlef, rfl⟩ := Option.isSome_iff_exists.mp (hps .leftFlap)
    obtain ⟨vrif, rfl⟩ := Option.isSome_iff_exists.mp (hps .rightFlap)
    obtain ⟨vfr, rfl⟩ := Option.isSome_iff_exists.mp (hps .front)
    obtain ⟨va1, rfl⟩ := Option.isSome_iff_exists.mp (hps .lidLeftFlap)
    obtain ⟨va2, rfl⟩ := Option.isSome_iff_exists.mp (hps .lidRightFlap)
    obtain ⟨va3, rfl⟩ := Option.isSome_iff_exists.mp (hps .leftBottomFlap)
    obtain ⟨va4, rfl⟩ := Option.isSome_iff_exists.mp (hps .rightBottomFlap)
    obtain ⟨wb, rfl⟩ := Option.isSome_iff_exists.mp (hrs .back)
    obtain ⟨wbo, rfl⟩ := Option.isSome_iff_exists.mp (hrs .bottom)
    obtain ⟨wl, rfl⟩ := Option.isSome_iff_exists.mp (hrs .lid)
    obtain ⟨wle, rfl⟩ := Option.isSome_iff_exists.mp (hrs .left)
    obtain ⟨wri, rfl⟩ := Option.isSome_iff_exists.mp (hrs .right)
    obtain ⟨wlf, rfl⟩ := Option.isSome_iff_exists.mp (hrs .lidFlap)
    obtain ⟨wlef, rfl⟩ := Option.isSome_iff_exists.mp (hrs .leftFlap)
    obtain ⟨wrif, rfl⟩ := Option.isSome_iff_exists.mp (hrs .rightFlap)
    obtain ⟨wfr, rfl⟩ := Option.isSome_iff_exists.mp (hrs .front)
    obtain ⟨wa1, rfl⟩ := Option.isSome_iff_exists.mp (hrs .lidLeftFlap)
    obtain ⟨wa2, rfl⟩ := Option.isSome_iff_exists.mp (hrs .lidRightFlap)
    obtain ⟨wa3, rfl⟩ := Option.isSome_iff_exists.mp (hrs .leftBottomFlap)
    obtain ⟨wa4, rfl⟩ := Option.isSome_iff_exists.mp (hrs .rightBottomFlap)
    rfl
  · intro s dims p
    rfl

/-- Witness for C4: the engine clause at the default spec-completed state,
`q = 1/4`, `p = 3/4`. -/
theorem engine_and_rebuild_history_free_witness :
    (UnfoldController.update (UnfoldController.initComplete defaultDims) (1 / 4)).bind
      (fun s1 => UnfoldController.update s1 (3 / 4)) =
    UnfoldController.update (UnfoldController.initComplete defaultDims) (3 / 4) :=
  engine_and_rebuild_history_free.2.2.1 (UnfoldController.initComplete defaultDims)
    (3 / 4) (1 / 4) (fun i => by cases i <;> rfl) (fun i => by cases i <;> rfl)

/-- Point on the segment from `a` to `b` at parameter `t ∈ [0,1]`. -/
def edgePt (a b : V3) (t : ℝ) : V3 := a.add (V3.smul t (b.sub a))

/-- World-space image of a local point of panel `i`: local transforms are
composed top-down along the scene-graph parent chain (`parentOf`); panels
whose mesh sits directly in the group use their own frame alone. -/
def worldPt (ps : Panels) (i : PanelId) (v : V3) : V3 :=
  let pose := (ps.get i).getD (TrapezoidBox.mkPose V3.zero TrapezoidBox.eulZero)
  match TrapezoidBox.parentOf i with
  | none => frameApply pose v
  | some j =>
    frameApply ((ps.get j).getD (TrapezoidBox.mkPose V3.zero TrapezoidBox.eulZero))
      (frameApply pose v)

/-- The hinge partner of each non-root panel: the panel whose edge it must
stay glued to (Back for the four articulated main panels, the scene-graph
parent for flaps and front). -/
def hingeParent : PanelId → PanelId
  | .back => .back
  | .bottom => .back
  | .lid => .back
  | .left => .back
  | .right => .back
  | .front => .bottom
  | .lidFlap => .lid
  | .lidLeftFlap => .lid
  | .lidRightFlap => .lid
  | .leftFlap => .left
  | .leftBottomFlap => .left
  | .rightFlap => .right
  | .rightBottomFlap => .right

/-- Local hinge edge of each panel, read off the geometry built by
`createGeometry` (plane/shape corners, with the flap geometries translated so
the hinge is the local origin edge). Parametrised over `t ∈ [0,1]`. -/
def hingeEdgeChild (dims : Dims) : PanelId → ℝ → V3
  | .back => fun _ => V3.zero
  | .bottom => edgePt ⟨-dims.bw / 2, -dims.d / 2, 0⟩ ⟨dims.bw / 2, -dims.d / 2, 0⟩
  | .lid => edgePt ⟨-dims.tw / 2, -dims.d / 2, 0⟩ ⟨dims.tw / 2, -dims.d / 2, 0⟩
  | .left => edgePt ⟨-dims.d / 2, -(TrapezoidBox.slantHeight dims) / 2, 0⟩
      ⟨-dims.d / 2, TrapezoidBox.slantHeight dims / 2, 0⟩
  | .right => edgePt ⟨-dims.d / 2, -(TrapezoidBox.slantHeight dims) / 2, 0⟩
      ⟨-dims.d / 2, TrapezoidBox.slantHeight dims / 2, 0⟩
  | .front => edgePt ⟨-dims.bw / 2, 0, 0⟩ ⟨dims.bw / 2, 0, 0⟩
  | .lidFlap => edgePt ⟨-dims.tw / 2, 0, 0⟩ ⟨dims.tw / 2, 0, 0⟩
  | .lidLeftFlap => edgePt ⟨0, -dims.d / 2, 0⟩ ⟨0, dims.d / 2, 0⟩
  | .lidRightFlap => edgePt ⟨0, -dims.d / 2, 0⟩ ⟨0, dims.d / 2, 0⟩
  | .leftFlap => edgePt ⟨0, -(TrapezoidBox.slantHeight dims) / 2, 0⟩
      ⟨0, TrapezoidBox.slantHeight dims / 2, 0⟩
  | .rightFlap => edgePt ⟨0, -(TrapezoidBox.slantHeight dims) / 2, 0⟩
      ⟨0, TrapezoidBox.slantHeight dims / 2, 0⟩
  | .leftBottomFlap => edgePt ⟨-dims.d / 2, 0, 0⟩ ⟨dims.d / 2, 0, 0⟩
  | .rightBottomFlap => edgePt ⟨-dims.d / 2, 0, 0⟩ ⟨dims.d / 2, 0, 0⟩

/-- The matching edge in the hinge partner's local frame (back's trapezoid
edges for the main panels, the parent's outer edge for flaps and front). -/
def hingeEdgeOnParent (dims : Dims) : PanelId → ℝ → V3
  | .back => fun _ => V3.zero
  | .bottom => edgePt ⟨-dims.bw / 2, -(dims.h / 2), 0⟩ ⟨dims.bw / 2, -(dims.h / 2), 0⟩
  | .lid => edgePt ⟨-dims.tw / 2, dims.h / 2, 0⟩ ⟨dims.tw / 2, dims.h / 2, 0⟩
  | .left => edgePt ⟨-dims.bw / 2, -(dims.h / 2), 0⟩ ⟨-dims.tw / 2, dims.h / 2, 0⟩
  | .right => edgePt ⟨dims.bw / 2, -(dims.h / 2), 0⟩ ⟨dims.tw / 2, dims.h / 2, 0⟩
  | .front => edgePt ⟨-dims.bw / 2, dims.d / 2, 0⟩ ⟨dims.bw / 2, dims.d / 2, 0⟩
  | .lidFlap => edgePt ⟨-dims.tw / 2, dims.d / 2, 0⟩ ⟨dims.tw / 2, dims.d / 2, 0⟩
  | .lidLeftFlap => edgePt ⟨-dims.tw / 2, -dims.d / 2, 0⟩ ⟨-dims.tw / 2, dims.d / 2, 0⟩
  | .lidRightFlap => edgePt ⟨dims.tw / 2, -dims.d / 2, 0⟩ ⟨dims.tw / 2, dims.d / 2, 0⟩
  | .leftFlap => edgePt ⟨dims.d / 2, -(TrapezoidBox.slantHeight dims) / 2, 0⟩
      ⟨dims.d / 2, TrapezoidBox.slantHeight dims / 2, 0⟩
  | .rightFlap => edgePt ⟨dims.d / 2, -(TrapezoidBox.slantHeight dims) / 2, 0⟩
      ⟨dims.d / 2, TrapezoidBox.slantHeight dims / 2, 0⟩
  | .leftBottomFlap => edgePt ⟨-dims.d / 2, -(TrapezoidBox.slantHeight dims) / 2, 0⟩
      ⟨dims.d / 2, -(TrapezoidBox.slantHeight dims) / 2, 0⟩
  | .rightBottomFlap => edgePt ⟨-dims.d / 2, -(TrapezoidBox.slantHeight dims) / 2, 0⟩
      ⟨dims.d / 2, -(TrapezoidBox.slantHeight dims) / 2, 0⟩

namespace TrapezoidBox

lemma slantHeight_sq (dims : Dims) :
    slantHeight dims ^ 2 = dxOf dims ^ 2 + dims.h ^ 2 := by
  have hnn : (0 : ℝ) ≤ dxOf dims * dxOf dims + dims.h * dims.h := by
    nlinarith [mul_self_nonneg (dxOf dims), mul_self_nonneg dims.h]
  rw [slantHeight, Real.sq_sqrt hnn]
  ring

lemma slantHeight_pos (dims : Dims) (hh : 0 < dims.h) : 0 < slantHeight dims := by
  apply Real.sqrt_pos.mpr
  nlinarith [mul_self_nonneg (dxOf dims)]

lemma slantHeight_eq (dims : Dims) (hh : 0 < dims.h) :
    slantHeight dims = dims.h * Real.sqrt (1 + (dxOf dims / dims.h) ^ 2) := by
  rw [slantHeight,
    show dxOf dims * dxOf dims + dims.h * dims.h =
      dims.h ^ 2 * (1 + (dxOf dims / dims.h) ^ 2) by field_simp; ring,
    Real.sqrt_mul (sq_nonneg dims.h), Real.sqrt_sq hh.le]

lemma cos_slantAngle (dims : Dims) (hh : 0 < dims.h) :
    Real.cos (slantAngle dims) = dims.h / slantHeight dims := by
  have hs : (0 : ℝ) < Real.sqrt (1 + (dxOf dims / dims.h) ^ 2) := by
    apply Real.sqrt_pos.mpr
    positivity
  rw [slantAngle, Real.cos_arctan, slantHeight_eq dims hh]
  field_simp

lemma sin_slantAngle (dims : Dims) (hh : 0 < dims.h) :
    Real.sin (slantAngle dims) = dxOf dims / slantHeight dims := by
  have hs : (0 : ℝ) < Real.sqrt (1 + (dxOf dims / dims.h) ^ 2) := by
    apply Real.sqrt_pos.mpr
    positivity
  rw [slantAngle, Real.sin_arctan, slantHeight_eq dims hh]
  field_simp

end TrapezoidBox

/-- Rodrigues rotation about a unit axis fixes multiples of the axis. -/
lemma applyAxisAngle_smul_axis (k : V3) (θ c : ℝ)
    (hk : k.x ^ 2 + k.y ^ 2 + k.z ^ 2 = 1) :
    applyAxisAngle k θ (V3.smul c k) = V3.smul c k := by
  refine V3.ext_xyz ?_ ?_ ?_
  · simp only [applyAxisAngle, V3.smul, V3.add, V3.cross, V3.dot]
    linear_combination (1 - Real.cos θ) * c * k.x * hk
  · simp only [applyAxisAngle, V3.smul, V3.add, V3.cross, V3.dot]
    linear_combination (1 - Real.cos θ) * c * k.y * hk
  · simp only [applyAxisAngle, V3.smul, V3.add, V3.cross, V3.dot]
    linear_combination (1 - Real.cos θ) * c * k.z * hk

/-- Rodrigues rotation distributes over vector addition. -/
lemma applyAxisAngle_add (k : V3) (θ : ℝ) (a b : V3) :
    applyAxisAngle k θ (a.add b) =
      (applyAxisAngle k θ a).add (applyAxisAngle k θ b) := by
  refine V3.ext_xyz ?_ ?_ ?_ <;>
    simp only [applyAxisAngle, V3.smul, V3.add, V3.cross, V3.dot] <;> ring

/-- Abbreviation for the panels the engine produces from the spec-completed
rest hierarchy. -/
def foldedPanels (dims : Dims) (p : ℝ) : Panels :=
  UnfoldController.enginePanels dims p (completedGeometry dims)

lemma zero_gap_lid (dims : Dims) (p t : ℝ) :
    worldPt (foldedPanels dims p) .lid (hingeEdgeChild dims .lid t) =
      worldPt (foldedPanels dims p) .back (hingeEdgeOnParent dims .lid t) := by
  simp only [foldedPanels, worldPt, TrapezoidBox.parentOf, Panels.get,
    UnfoldController.enginePanels, completedGeometry, specExtraFlaps,
    TrapezoidBox.createGeometry, Option.map, Option.getD, hingeEdgeChild,
    hingeEdgeOnParent, frameApply, orientApply, applySpins, eulApply, rotXv,
    rotYv, rotZv, applyAxisAngle, edgePt, V3.add, V3.sub, V3.smul, V3.dot,
    V3.cross, UnfoldController.rotateAroundPivot, TrapezoidBox.mkPose,
    TrapezoidBox.eulZero]
  norm_num [Real.cos_pi_div_two, Real.sin_pi_div_two]
  ring

lemma zero_gap_bottom (dims : Dims) (p t : ℝ) :
    worldPt (foldedPanels dims p) .bottom (hingeEdgeChild dims .bottom t) =
      worldPt (foldedPanels dims p) .back (hingeEdgeOnParent dims .bottom t) := by
  simp only [foldedPanels, worldPt, TrapezoidBox.parentOf, Panels.get,
    UnfoldController.enginePanels, completedGeometry, specExtraFlaps,
    TrapezoidBox.createGeometry, Option.map, Option.getD, hingeEdgeChild,
    hingeEdgeOnParent, frameApply, orientApply, applySpins, eulApply, rotXv,
    rotYv, rotZv, applyAxisAngle, edgePt, V3.add, V3.sub, V3.smul, V3.dot,
    V3.cross, UnfoldController.rotateAroundPivot, TrapezoidBox.mkPose,
    TrapezoidBox.eulZero]
  norm_num [Real.cos_pi_div_two, Real.sin_pi_div_two]
  try ring

lemma zero_gap_front (dims : Dims) (p t : ℝ) :
    worldPt (foldedPanels dims p) .front (hingeEdgeChild dims .front t) =
      worldPt (foldedPanels dims p) .bottom (hingeEdgeOnParent dims .front t) := by
  simp only [foldedPanels, worldPt, TrapezoidBox.parentOf, Panels.get,
    UnfoldController.enginePanels, completedGeometry, specExtraFlaps,
    TrapezoidBox.createGeometry, Option.map, Option.getD, hingeEdgeChild,
    hingeEdgeOnParent, frameApply, orientApply, applySpins, eulApply, rotXv,
    rotYv, rotZv, applyAxisAngle, edgePt, V3.add, V3.sub, V3.smul, V3.dot,
    V3.cross, UnfoldController.rotateAroundPivot, UnfoldController.setEulX,
    UnfoldController.setEulY, TrapezoidBox.mkPose, TrapezoidBox.eulZero]
  norm_num [Real.cos_pi_div_two, Real.sin_pi_div_two]
  try ring

lemma zero_gap_lidFlap (dims : Dims) (p t : ℝ) :
    worldPt (foldedPanels dims p) .lidFlap (hingeEdgeChild dims .lidFlap t) =
      worldPt (foldedPanels dims p) .lid (hingeEdgeOnParent dims .lidFlap t) := by
  simp only [foldedPanels, worldPt, TrapezoidBox.parentOf, Panels.get,
    UnfoldController.enginePanels, completedGeometry, specExtraFlaps,
    TrapezoidBox.createGeometry, Option.map, Option.getD, hingeEdgeChild,
    hingeEdgeOnParent, frameApply, orientApply, applySpins, eulApply, rotXv,
    rotYv, rotZv, applyAxisAngle, edgePt, V3.add, V3.sub, V3.smul, V3.dot,
    V3.cross, UnfoldController.rotateAroundPivot, UnfoldController.setEulX,
    UnfoldController.setEulY, TrapezoidBox.mkPose, TrapezoidBox.eulZero]
  norm_num [Real.cos_pi_div_two, Real.sin_pi_div_two]
  try ring

lemma zero_gap_lidLeftFlap (dims : Dims) (p t : ℝ) :
    worldPt (foldedPanels dims p) .lidLeftFlap (hingeEdgeChild dims .lidLeftFlap t) =
      worldPt (foldedPanels dims p) .lid (hingeEdgeOnParent dims .lidLeftFlap t) := by
  simp only [foldedPanels, worldPt, TrapezoidBox.parentOf, Panels.get,
    UnfoldController.enginePanels, completedGeometry, specExtraFlaps,
    TrapezoidBox.createGeometry, Option.map, Option.getD, hingeEdgeChild,
    hingeEdgeOnParent, frameApply, orientApply, applySpins, eulApply, rotXv,
    rotYv, rotZv, applyAxisAngle, edgePt, V3.add, V3.sub, V3.smul, V3.dot,
    V3.cross, UnfoldController.rotateAroundPivot, UnfoldController.setEulX,
    UnfoldController.setEulY, TrapezoidBox.mkPose, TrapezoidBox.eulZero]
  norm_num [Real.cos_pi_div_two, Real.sin_pi_div_two]
  try ring

lemma zero_gap_lidRightFlap (dims : Dims) (p t : ℝ) :
    worldPt (foldedPanels dims p) .lidRightFlap (hingeEdgeChild dims .lidRightFlap t) =
      worldPt (foldedPanels dims p) .lid (hingeEdgeOnParent dims .lidRightFlap t) := by
  simp only [foldedPanels, worldPt, TrapezoidBox.parentOf, Panels.get,
    UnfoldController.enginePanels, completedGeometry, specExtraFlaps,
    TrapezoidBox.createGeometry, Option.map, Option.getD, hingeEdgeChild,
    hingeEdgeOnParent, frameApply, orientApply, applySpins, eulApply, rotXv,
    rotYv, rotZv, applyAxisAngle, edgePt, V3.add, V3.sub, V3.smul, V3.dot,
    V3.cross, UnfoldController.rotateAroundPivot, UnfoldController.setEulX,
    UnfoldController.setEulY, TrapezoidBox.mkPose, TrapezoidBox.eulZero]
  norm_num [Real.cos_pi_div_two, Real.sin_pi_div_two]
  try ring

lemma zero_gap_leftFlap (dims : Dims) (p t : ℝ) :
    worldPt (foldedPanels dims p) .leftFlap (hingeEdgeChild dims .leftFlap t) =
      worldPt (foldedPanels dims p) .left (hingeEdgeOnParent dims .leftFlap t) := by
  simp only [foldedPanels, worldPt, TrapezoidBox.parentOf, Panels.get,
    UnfoldController.enginePanels, completedGeometry, specExtraFlaps,
    TrapezoidBox.createGeometry, Option.map, Option.getD, hingeEdgeChild,
    hingeEdgeOnParent, frameApply, orientApply, applySpins, eulApply, rotXv,
    rotYv, rotZv, applyAxisAngle, edgePt, V3.add, V3.sub, V3.smul, V3.dot,
    V3.cross, V3.normalize, V3.len, UnfoldController.rotateAroundPivot,
    UnfoldController.setEulX, UnfoldController.setEulY, TrapezoidBox.mkPose,
    TrapezoidBox.eulZero]
  norm_num [Real.cos_pi_div_two, Real.sin_pi_div_two]
  try ring

lemma zero_gap_rightFlap (dims : Dims) (p t : ℝ) :
    worldPt (foldedPanels dims p) .rightFlap (hingeEdgeChild dims .rightFlap t) =
      worldPt (foldedPanels dims p) .right (hingeEdgeOnParent dims .rightFlap t) := by
  simp only [foldedPanels, worldPt, TrapezoidBox.parentOf, Panels.get,
    UnfoldController.enginePanels, completedGeometry, specExtraFlaps,
    TrapezoidBox.createGeometry, Option.map, Option.getD, hingeEdgeChild,
    hingeEdgeOnParent, frameApply, orientApply, applySpins, eulApply, rotXv,
    rotYv, rotZv, applyAxisAngle, edgePt, V3.add, V3.sub, V3.smul, V3.dot,
    V3.cross, V3.normalize, V3.len, UnfoldController.rotateAroundPivot,
    UnfoldController.setEulX, UnfoldController.setEulY, TrapezoidBox.mkPose,
    TrapezoidBox.eulZero]
  norm_num [Real.cos_pi_div_two, Real.sin_pi_div_two]
  try ring

lemma zero_gap_leftBottomFlap (dims : Dims) (p t : ℝ) :
    worldPt (foldedPanels dims p) .leftBottomFlap (hingeEdgeChild dims .leftBottomFlap t) =
      worldPt (foldedPanels dims p) .left (hingeEdgeOnParent dims .leftBottomFlap t) := by
  simp only [foldedPanels, worldPt, TrapezoidBox.parentOf, Panels.get,
    UnfoldController.enginePanels, completedGeometry, specExtraFlaps,
    TrapezoidBox.createGeometry, Option.map, Option.getD, hingeEdgeChild,
    hingeEdgeOnParent, frameApply, orientApply, applySpins, eulApply, rotXv,
    rotYv, rotZv, applyAxisAngle, edgePt, V3.add, V3.sub, V3.smul, V3.dot,
    V3.cross, V3.normalize, V3.len, UnfoldController.rotateAroundPivot,
    UnfoldController.setEulX, UnfoldController.setEulY, TrapezoidBox.mkPose,
    TrapezoidBox.eulZero]
  norm_num [Real.cos_pi_div_two, Real.sin_pi_div_two]
  try ring
  tauto

lemma zero_gap_rightBottomFlap (dims : Dims) (p t : ℝ) :
    worldPt (foldedPanels dims p) .rightBottomFlap
        (hingeEdgeChild dims .rightBottomFlap t) =
      worldPt (foldedPanels dims p) .right (hingeEdgeOnParent dims .rightBottomFlap t) := by
  simp only [foldedPanels, worldPt, TrapezoidBox.parentOf, Panels.get,
    UnfoldController.enginePanels, completedGeometry, specExtraFlaps,
    TrapezoidBox.createGeometry, Option.map, Option.getD, hingeEdgeChild,
    hingeEdgeOnParent, frameApply, orientApply, applySpins, eulApply, rotXv,
    rotYv, rotZv, applyAxisAngle, edgePt, V3.add, V3.sub, V3.smul, V3.dot,
    V3.cross, V3.normalize, V3.len, UnfoldController.rotateAroundPivot,
    UnfoldController.setEulX, UnfoldController.setEulY, TrapezoidBox.mkPose,
    TrapezoidBox.eulZero]
  norm_num [Real.cos_pi_div_two, Real.sin_pi_div_two]
  try ring
  tauto

/-- Rearrangement helper for pivot-rotation sums. -/
lemma V3.add_right_comm' (a b c : V3) : (a.add b).add c = (a.add c).add b := by
  refine V3.ext_xyz ?_ ?_ ?_ <;> simp only [V3.add] <;> ring

lemma zero_gap_left (dims : Dims) (p t : ℝ) (hh : 0 < dims.h) :
    worldPt (foldedPanels dims p) .left (hingeEdgeChild dims .left t) =
      worldPt (foldedPanels dims p) .back (hingeEdgeOnParent dims .left t) := by
  have hs0 : TrapezoidBox.slantHeight dims ≠ 0 :=
    (TrapezoidBox.slantHeight_pos dims hh).ne'
  have hco := TrapezoidBox.cos_slantAngle dims hh
  have hsi := TrapezoidBox.sin_slantAngle dims hh
  have hs2 := TrapezoidBox.slantHeight_sq dims
  simp only [foldedPanels, worldPt, TrapezoidBox.parentOf, Panels.get,
    UnfoldController.enginePanels, completedGeometry, specExtraFlaps,
    TrapezoidBox.createGeometry, Option.map, Option.getD,
    UnfoldController.rotateAroundPivot, TrapezoidBox.mkPose, frameApply,
    orientApply, applySpins]
  rw [V3.add_right_comm', ← applyAxisAngle_add]
  have hlen : V3.len ((⟨-dims.tw / 2, dims.h / 2, -dims.d / 2⟩ : V3).sub
      ⟨-dims.bw / 2, -(dims.h / 2), -dims.d / 2⟩) =
      TrapezoidBox.slantHeight dims := by
    simp only [V3.len, V3.sub, TrapezoidBox.slantHeight, TrapezoidBox.dxOf]
    congr 1
    ring
  have hax : ((⟨-dims.tw / 2, dims.h / 2, -dims.d / 2⟩ : V3).sub
      ⟨-dims.bw / 2, -(dims.h / 2), -dims.d / 2⟩).normalize =
      ⟨-TrapezoidBox.dxOf dims / TrapezoidBox.slantHeight dims,
        dims.h / TrapezoidBox.slantHeight dims, 0⟩ := by
    rw [V3.normalize, hlen]
    refine V3.ext_xyz ?_ ?_ ?_ <;>
      simp only [V3.smul, V3.sub, TrapezoidBox.dxOf] <;> ring
  rw [hax]
  have hvec : (((⟨-dims.bw / 2, -dims.h / 2, -dims.d / 2⟩ : V3).sub
        (eulApply ⟨-TrapezoidBox.slantAngle dims, Real.pi / 2, 0, EulOrder.yxz⟩
          ⟨-dims.d / 2, -TrapezoidBox.slantHeight dims / 2, 0⟩)).sub
        (⟨-dims.bw / 2, -(dims.h / 2), -dims.d / 2⟩ : V3)).add
      (eulApply ⟨-TrapezoidBox.slantAngle dims, Real.pi / 2, 0, EulOrder.yxz⟩
        (hingeEdgeChild dims PanelId.left t)) =
      V3.smul (t * TrapezoidBox.slantHeight dims)
        ⟨-TrapezoidBox.dxOf dims / TrapezoidBox.slantHeight dims,
          dims.h / TrapezoidBox.slantHeight dims, 0⟩ := by
    refine V3.ext_xyz ?_ ?_ ?_ <;>
      simp only [V3.sub, V3.add, V3.smul, eulApply, rotXv, rotYv, rotZv,
        hingeEdgeChild, edgePt, Real.cos_pi_div_two, Real.sin_pi_div_two,
        Real.cos_neg, Real.sin_neg, hco, hsi] <;>
      field_simp <;> ring
  rw [hvec, applyAxisAngle_smul_axis _ _ _ ?hk]
  case hk =>
    simp only [V3.smul]
    field_simp
    linarith [hs2]
  refine V3.ext_xyz ?_ ?_ ?_ <;>
    simp only [V3.smul, V3.add, V3.sub, eulApply, TrapezoidBox.eulZero, rotXv, rotYv,
      rotZv, hingeEdgeOnParent, edgePt, TrapezoidBox.dxOf, Real.cos_zero, Real.sin_zero] <;>
    field_simp <;> ring

lemma zero_gap_right (dims : Dims) (p t : ℝ) (hh : 0 < dims.h) :
    worldPt (foldedPanels dims p) .right (hingeEdgeChild dims .right t) =
      worldPt (foldedPanels dims p) .back (hingeEdgeOnParent dims .right t) := by
  have hs0 : TrapezoidBox.slantHeight dims ≠ 0 :=
    (TrapezoidBox.slantHeight_pos dims hh).ne'
  have hco := TrapezoidBox.cos_slantAngle dims hh
  have hsi := TrapezoidBox.sin_slantAngle dims hh
  have hs2 := TrapezoidBox.slantHeight_sq dims
  simp only [foldedPanels, worldPt, TrapezoidBox.parentOf, Panels.get,
    UnfoldController.enginePanels, completedGeometry, specExtraFlaps,
    TrapezoidBox.createGeometry, Option.map, Option.getD,
    UnfoldController.rotateAroundPivot, TrapezoidBox.mkPose, frameApply,
    orientApply, applySpins]
  rw [V3.add_right_comm', ← applyAxisAngle_add]
  have hlen : V3.len ((⟨dims.tw / 2, dims.h / 2, -dims.d / 2⟩ : V3).sub
      ⟨dims.bw / 2, -(dims.h / 2), -dims.d / 2⟩) =
      TrapezoidBox.slantHeight dims := by
    simp only [V3.len, V3.sub, TrapezoidBox.slantHeight, TrapezoidBox.dxOf]
    congr 1
    ring
  have hax : ((⟨dims.tw / 2, dims.h / 2, -dims.d / 2⟩ : V3).sub
      ⟨dims.bw / 2, -(dims.h / 2), -dims.d / 2⟩).normalize =
      ⟨TrapezoidBox.dxOf dims / TrapezoidBox.slantHeight dims,
        dims.h / TrapezoidBox.slantHeight dims, 0⟩ := by
    rw [V3.normalize, hlen]
    refine V3.ext_xyz ?_ ?_ ?_ <;>
      simp only [V3.smul, V3.sub, TrapezoidBox.dxOf] <;> ring
  rw [hax]
  have hvec : (((⟨dims.bw / 2, -dims.h / 2, -dims.d / 2⟩ : V3).sub
        (eulApply ⟨TrapezoidBox.slantAngle dims, Real.pi / 2, 0, EulOrder.yxz⟩
          ⟨-dims.d / 2, -TrapezoidBox.slantHeight dims / 2, 0⟩)).sub
        (⟨dims.bw / 2, -(dims.h / 2), -dims.d / 2⟩ : V3)).add
      (eulApply ⟨TrapezoidBox.slantAngle dims, Real.pi / 2, 0, EulOrder.yxz⟩
        (hingeEdgeChild dims PanelId.right t)) =
      V3.smul (t * TrapezoidBox.slantHeight dims)
        ⟨TrapezoidBox.dxOf dims / TrapezoidBox.slantHeight dims,
          dims.h / TrapezoidBox.slantHeight dims, 0⟩ := by
    refine V3.ext_xyz ?_ ?_ ?_ <;>
      simp only [V3.sub, V3.add, V3.smul, eulApply, rotXv, rotYv, rotZv,
        hingeEdgeChild, edgePt, Real.cos_pi_div_two, Real.sin_pi_div_two,
        Real.cos_neg, Real.sin_neg, hco, hsi] <;>
      field_simp <;> ring
  rw [hvec, applyAxisAngle_smul_axis _ _ _ ?hk]
  case hk =>
    simp only [V3.smul]
    field_simp
    linarith [hs2]
  refine V3.ext_xyz ?_ ?_ ?_ <;>
    simp only [V3.smul, V3.add, V3.sub, eulApply, TrapezoidBox.eulZero, rotXv, rotYv,
      rotZv, hingeEdgeOnParent, edgePt, TrapezoidBox.dxOf, Real.cos_zero, Real.sin_zero] <;>
    field_simp <;> ring

set_option maxHeartbeats 1000000 in
/-- C2: for every valid set of dimensions and every progress in `[0,1]`,
after the engine computes the panel poses (over the spec-completed
hierarchy), the world-space hinge edge of every non-root panel coincides
exactly (epsilon `0`) with the corresponding edge on its hinge partner,
world transforms being composed top-down along the parent chain. -/
theorem zero_gap_invariant (dims : Dims) (p t : ℝ)
    (htw : 0 < dims.tw) (hbw : 0 < dims.bw) (hh : 0 < dims.h) (hd : 0 < dims.d)
    (hfw : 0 ≤ dims.fw) (hp0 : 0 ≤ p) (hp1 : p ≤ 1) (ht0 : 0 ≤ t) (ht1 : t ≤ 1) :
    UnfoldController.update (UnfoldController.initComplete dims) p =
      Except.ok ⟨foldedPanels dims p, (UnfoldController.initComplete dims).rest,
        dims, p⟩ ∧
    ∀ i, i ≠ PanelId.back →
      worldPt (foldedPanels dims p) i (hingeEdgeChild dims i t) =
        worldPt (foldedPanels dims p) (hingeParent i) (hingeEdgeOnParent dims i t) := by
  refine ⟨rfl, ?_⟩
  intro i hi
  cases i with
  | back => exact absurd rfl hi
  | bottom => exact zero_gap_bottom dims p t
  | lid => exact zero_gap_lid dims p t
  | left => exact zero_gap_left dims p t hh
  | right => exact zero_gap_right dims p t hh
  | front => exact zero_gap_front dims p t
  | lidFlap => exact zero_gap_lidFlap dims p t
  | lidLeftFlap => exact zero_gap_lidLeftFlap dims p t
  | lidRightFlap => exact zero_gap_lidRightFlap dims p t
  | leftFlap => exact zero_gap_leftFlap dims p t
  | rightFlap => exact zero_gap_rightFlap dims p t
  | leftBottomFlap => exact zero_gap_leftBottomFlap dims p t
  | rightBottomFlap => exact zero_gap_rightBottomFlap dims p t

/-- Witness for C2 at the default dimensions, `p = 1/2`, `t = 1/2`. -/
theorem zero_gap_invariant_witness :
    UnfoldController.update (UnfoldController.initComplete defaultDims) (1 / 2) =
      Except.ok ⟨foldedPanels defaultDims (1 / 2),
        (UnfoldController.initComplete defaultDims).rest, defaultDims, 1 / 2⟩ ∧
    ∀ i, i ≠ PanelId.back →
      worldPt (foldedPanels defaultDims (1 / 2)) i
          (hingeEdgeChild defaultDims i (1 / 2)) =
        worldPt (foldedPanels defaultDims (1 / 2)) (hingeParent i)
          (hingeEdgeOnParent defaultDims i (1 / 2)) :=
  zero_gap_invariant defaultDims (1 / 2) (1 / 2) (by norm_num [defaultDims])
    (by norm_num [defaultDims]) (by norm_num [defaultDims]) (by norm_num [defaultDims])
    (by norm_num [defaultDims]) (by norm_num) (by norm_num) (by norm_num) (by norm_num)
